import Mathlib

/-!
Shallow embedding of `keygraph-rs` (src/lib.rs): a compiler from textual
keyboard layouts to directed adjacency graphs over `petgraph`'s
`DiGraphMap<Key, Edge>`.

Modelling conventions:
* Rust `char` is Lean `Char`; the sentinel `'\0'` is `nullChar`.
* `DiGraphMap<Key, Edge>` is a `Graph`: an insertion-ordered node list
  without duplicates plus an insertion-ordered edge list keyed by the
  ordered node pair (petgraph stores nodes and edges in `IndexMap`s, so
  iteration order is insertion order; `add_node` is a no-op on an existing
  node and `add_edge` overwrites the weight of an existing edge in place).
* Machine-integer casts (`as i32`, `as usize`) are modelled as exact `Int`
  arithmetic; the guarded indices are tiny so overflow never matters here.
* The single panic site, `rows.get(y as usize).unwrap()` in
  `connect_keyboard_nodes`, is modelled by returning `Option`: `none`
  means the Rust code would panic.
-/

namespace Keygraph

/-- The sentinel character `'\0'`. -/
def nullChar : Char := Char.ofNat 0

/-- The backtick character. -/
def backquote : Char := Char.ofNat 96

/-- The single-quote character. -/
def squote : Char := Char.ofNat 39

/-- Rust `struct Key { value: char, shifted: char }`. -/
structure Key where
  value : Char
  shifted : Char
deriving DecidableEq

/-- Rust `enum Direction { Previous = -1, Next = 1, Same = 0 }`. -/
inductive Direction where
  | Previous
  | Next
  | Same
deriving DecidableEq, Fintype

/-- The discriminant of a `Direction`, used by `dir as i32` in the source. -/
def Direction.toInt : Direction → Int
  | .Previous => -1
  | .Next => 1
  | .Same => 0

/-- Rust `struct Edge { horizontal: Direction, vertical: Direction }`. -/
structure Edge where
  horizontal : Direction
  vertical : Direction
deriving DecidableEq, Fintype

/-- Rust `enum KeyboardStyle { Slanted, Aligned }`. -/
inductive KeyboardStyle where
  | Slanted
  | Aligned
deriving DecidableEq

/-- Rust `get_slanted_positions`. -/
def get_slanted_positions : List Edge :=
  [ Edge.mk .Previous .Same,
    Edge.mk .Same .Previous,
    Edge.mk .Next .Previous,
    Edge.mk .Next .Same,
    Edge.mk .Same .Next,
    Edge.mk .Previous .Next ]

/-- Rust `get_aligned_positions`. -/
def get_aligned_positions : List Edge :=
  [ Edge.mk .Previous .Same,
    Edge.mk .Previous .Previous,
    Edge.mk .Same .Previous,
    Edge.mk .Next .Previous,
    Edge.mk .Next .Same,
    Edge.mk .Next .Next,
    Edge.mk .Same .Next,
    Edge.mk .Previous .Next ]

/-- `petgraph::graphmap::DiGraphMap<Key, Edge>`: insertion-ordered nodes
(no duplicates) and directed edges keyed by the ordered pair of keys. -/
structure Graph where
  nodes : List Key
  edges : List (Key × Key × Edge)
deriving DecidableEq

/-- `DiGraphMap::new()`. -/
def Graph.empty : Graph := ⟨[], []⟩

/-- `DiGraphMap::add_node`: insert at the end if absent, no-op otherwise. -/
def Graph.add_node (g : Graph) (k : Key) : Graph :=
  if k ∈ g.nodes then g else { g with nodes := g.nodes ++ [k] }

/-- Replace the weight of edge `(a, b)` in place, or append it. This is the
`IndexMap::insert` used by `DiGraphMap::add_edge` for the edge weight. -/
def setEdge : List (Key × Key × Edge) → Key → Key → Edge → List (Key × Key × Edge)
  | [], a, b, w => [(a, b, w)]
  | e :: rest, a, b, w =>
    if e.1 = a ∧ e.2.1 = b then (a, b, w) :: rest else e :: setEdge rest a b w

/-- `DiGraphMap::add_edge`: ensure both endpoints are nodes (source first),
then insert or overwrite the directed edge `(a, b)` with weight `w`. -/
def Graph.add_edge (g : Graph) (a b : Key) (w : Edge) : Graph :=
  let g1 := g.add_node a
  let g2 := g1.add_node b
  { g2 with edges := setEdge g2.edges a b w }

/-- `impl KeySearch for DiGraphMap<Key, Edge>`: `find_key` returns `None`
for the sentinel, otherwise the first node (in insertion order) whose
`value` or `shifted` equals `v`. -/
def Graph.find_key (g : Graph) (v : Char) : Option Key :=
  if v = nullChar then none
  else g.nodes.find? (fun x => decide (x.value = v ∨ x.shifted = v))

/-- Split a character list at newline characters; accumulator holds the
current (reversed) segment. Every segment but the last was terminated by
a newline in the input. -/
def splitOnNewline : List Char → List Char → List (List Char)
  | [], acc => [acc.reverse]
  | c :: rest, acc =>
    if c = '\n' then acc.reverse :: splitOnNewline rest []
    else splitOnNewline rest (c :: acc)

/-- Strip one trailing carriage return, as Rust `str::lines` does on each
newline-terminated chunk. -/
def stripCR (l : List Char) : List Char :=
  match l.reverse with
  | c :: rest => if c = '\r' then rest.reverse else l
  | [] => l

/-- Rust `str::lines`: split at `'\n'` (a preceding `'\r'` is dropped);
a final line ending produces no trailing empty line. -/
def rustLines (s : String) : List (List Char) :=
  let segs := splitOnNewline s.toList []
  let body := segs.dropLast.map stripCR
  match segs.getLast? with
  | some [] => body
  | some l => body ++ [l]
  | none => body

/-- The inner loop body of `connect_keyboard_nodes`: one relative position
`dir` applied at the cell `(i, j)` (holding the key resolved to `k`).
`none` models the `rows.get(y as usize).unwrap()` panic. -/
def connectDir (rows : List (List Char)) (rowcount : Int) (row : List Char)
    (add_missing_keys : Bool) (i j : Nat) (k : Key) (g : Graph) (dir : Edge) :
    Option Graph :=
  let y : Int := (i : Int) + dir.vertical.toInt
  let x : Int := (j : Int) + dir.horizontal.toInt
  if y > -1 ∧ y < rowcount ∧ x > -1 then
    match (if dir.vertical = Direction.Same then some row else rows[y.toNat]?) with
    | none => none
    | some temp_row =>
      match temp_row[x.toNat]? with
      | none => some g
      | some temp_char =>
        match g.find_key temp_char, add_missing_keys with
        | none, false => some g
        | fn, _ =>
          let n := match fn with
            | some n => n
            | none => Key.mk temp_char nullChar
          some (g.add_edge k n dir)
  else some g

/-- The per-cell body of `connect_keyboard_nodes`: resolve the character at
cell `(i, j)` to a key (skipping under the pre-registered policy,
synthesizing under auto-create) and try every relative position. -/
def connectCell (rows : List (List Char)) (rowcount : Int)
    (relative_positions : List Edge) (add_missing_keys : Bool)
    (i : Nat) (row : List Char) (g : Graph) (j : Nat) (key : Char) :
    Option Graph :=
  match g.find_key key, add_missing_keys with
  | none, false => some g
  | fk, _ =>
    let k := match fk with
      | some k => k
      | none => Key.mk key nullChar
    relative_positions.foldlM (connectDir rows rowcount row add_missing_keys i j k) g

/-- The row grammar of `connect_keyboard_nodes`: split the layout block into
lines and drop the spaces that delimit keys within a line. -/
def parse_rows (keyboard : String) : List (List Char) :=
  (rustLines keyboard).map (fun x => x.filter (fun y => decide (y ≠ ' ')))

/-- Rust `connect_keyboard_nodes`. Returns `none` exactly when the Rust code
would panic on `rows.get(y as usize).unwrap()`. -/
def connect_keyboard_nodes (keyboard : String) (graph : Graph)
    (style : KeyboardStyle) (add_missing_keys : Bool) : Option Graph :=
  let relative_positions :=
    if style = KeyboardStyle.Slanted then get_slanted_positions
    else get_aligned_positions
  let rows := parse_rows keyboard
  let rowcount : Int := rows.length
  rows.enum.foldlM
    (fun g ir =>
      ir.2.enum.foldlM
        (fun g jk =>
          connectCell rows rowcount relative_positions add_missing_keys
            ir.1 ir.2 g jk.1 jk.2)
        g)
    graph

/-- Rust `ALPHABET`. -/
def ALPHABET : List Char := "abcdefghijklmnopqrstuvwxyz".toList

/-- Rust `NUMBERS`. -/
def NUMBERS : List Char := "0123456789".toList

/-- Rust `add_alphabetics`: add the 26 lowercase/uppercase letter keys.
`c.to_uppercase().nth(0).unwrap()` on an ASCII lowercase letter is its
ASCII uppercase, i.e. `Char.toUpper`. -/
def add_alphabetics (g : Graph) : Graph :=
  ALPHABET.foldl (fun g c => g.add_node (Key.mk c c.toUpper)) g

/-- Rust `add_unshifted_number_keys`: the ten digit keys, no shift value. -/
def add_unshifted_number_keys (g : Graph) : Graph :=
  NUMBERS.foldl (fun g c => g.add_node (Key.mk c nullChar)) g

/-- Rust `add_remaining_keys`. -/
def add_remaining_keys (keys : List Key) (g : Graph) : Graph :=
  keys.foldl (fun g k => g.add_node k) g

/-- The layout block of `generate_qwerty_us` (after Rust string-literal
line-continuation processing). The backtick and single-quote characters are
spliced in because their literals read poorly. -/
def qwerty_us_layout : String :=
  backquote.toString ++ " 1 2 3 4 5 6 7 8 9 0 - =\n\x00 q w e r t y u i o p [ ] \\\n\x00 a s d f g h j k l ; " ++ squote.toString ++ "\n\x00 z x c v b n m , . /"

/-- The punctuation/shift table of `generate_qwerty_us` (also used by
`generate_dvorak`). -/
def remaining_keys : List Key :=
  [ Key.mk backquote '~',
    Key.mk '1' '!',
    Key.mk '2' '@',
    Key.mk '3' '#',
    Key.mk '4' '$',
    Key.mk '5' '%',
    Key.mk '6' '^',
    Key.mk '7' '&',
    Key.mk '8' '*',
    Key.mk '9' '(',
    Key.mk '0' ')',
    Key.mk '-' '_',
    Key.mk '=' '+',
    Key.mk '[' '\x7b',
    Key.mk ']' '\x7d',
    Key.mk '\\' '|',
    Key.mk ';' ':',
    Key.mk squote '"',
    Key.mk ',' '<',
    Key.mk '.' '>',
    Key.mk '/' '?' ]

/-- Rust `generate_qwerty_us`, with the `unwrap` panic modelled as `none`. -/
def generate_qwerty_us : Option Graph :=
  let result := Graph.empty
  let result := add_alphabetics result
  let result := add_remaining_keys remaining_keys result
  connect_keyboard_nodes qwerty_us_layout result KeyboardStyle.Slanted false

/-- The layout block of `generate_dvorak`. -/
def dvorak_layout : String :=
  backquote.toString ++ " 1 2 3 4 5 6 7 8 9 0 [ ]\n\x00 " ++ squote.toString ++ " , . p y f g c r l / = \\\n\x00 a o e u i d h t n s -\n\x00 ; q j k x b m w v z"

/-- Rust `generate_dvorak`. -/
def generate_dvorak : Option Graph :=
  let result := Graph.empty
  let result := add_alphabetics result
  let result := add_remaining_keys remaining_keys result
  connect_keyboard_nodes dvorak_layout result KeyboardStyle.Slanted false

/-- The layout block of `generate_standard_numpad`. -/
def numpad_layout : String := "\x00 / * -\n7 8 9 +\n4 5 6\n1 2 3\n\x00 0 ."

/-- Rust `generate_standard_numpad`. -/
def generate_standard_numpad : Option Graph :=
  let result := Graph.empty
  let result := add_unshifted_number_keys result
  connect_keyboard_nodes numpad_layout result KeyboardStyle.Aligned true

/-- The layout block of `generate_mac_numpad`. -/
def mac_numpad_layout : String := "\x00 = / *\n7 8 9 -\n4 5 6 +\n1 2 3\n\x00 0 ."

/-- Rust `generate_mac_numpad`. -/
def generate_mac_numpad : Option Graph :=
  let result := Graph.empty
  connect_keyboard_nodes mac_numpad_layout result KeyboardStyle.Aligned true

/-- The memoized `QWERTY_US` graph (the generator is proved panic-free, so
the default is never taken). -/
def QWERTY_US : Graph := generate_qwerty_us.getD Graph.empty

/-- The memoized `DVORAK` graph. -/
def DVORAK : Graph := generate_dvorak.getD Graph.empty

/-- The memoized `STANDARD_NUMPAD` graph. -/
def STANDARD_NUMPAD : Graph := generate_standard_numpad.getD Graph.empty

/-- The memoized `MAC_NUMPAD` graph. -/
def MAC_NUMPAD : Graph := generate_mac_numpad.getD Graph.empty

/-- Machine-checked explicit form of `QWERTY_US`. -/
def QWERTY_US_lit : Graph :=
  Graph.mk
  [ Key.mk (Char.ofNat 97) (Char.ofNat 65),
    Key.mk (Char.ofNat 98) (Char.ofNat 66),
    Key.mk (Char.ofNat 99) (Char.ofNat 67),
    Key.mk (Char.ofNat 100) (Char.ofNat 68),
    Key.mk (Char.ofNat 101) (Char.ofNat 69),
    Key.mk (Char.ofNat 102) (Char.ofNat 70),
    Key.mk (Char.ofNat 103) (Char.ofNat 71),
    Key.mk (Char.ofNat 104) (Char.ofNat 72),
    Key.mk (Char.ofNat 105) (Char.ofNat 73),
    Key.mk (Char.ofNat 106) (Char.ofNat 74),
    Key.mk (Char.ofNat 107) (Char.ofNat 75),
    Key.mk (Char.ofNat 108) (Char.ofNat 76),
    Key.mk (Char.ofNat 109) (Char.ofNat 77),
    Key.mk (Char.ofNat 110) (Char.ofNat 78),
    Key.mk (Char.ofNat 111) (Char.ofNat 79),
    Key.mk (Char.ofNat 112) (Char.ofNat 80),
    Key.mk (Char.ofNat 113) (Char.ofNat 81),
    Key.mk (Char.ofNat 114) (Char.ofNat 82),
    Key.mk (Char.ofNat 115) (Char.ofNat 83),
    Key.mk (Char.ofNat 116) (Char.ofNat 84),
    Key.mk (Char.ofNat 117) (Char.ofNat 85),
    Key.mk (Char.ofNat 118) (Char.ofNat 86),
    Key.mk (Char.ofNat 119) (Char.ofNat 87),
    Key.mk (Char.ofNat 120) (Char.ofNat 88),
    Key.mk (Char.ofNat 121) (Char.ofNat 89),
    Key.mk (Char.ofNat 122) (Char.ofNat 90),
    Key.mk (Char.ofNat 96) (Char.ofNat 126),
    Key.mk (Char.ofNat 49) (Char.ofNat 33),
    Key.mk (Char.ofNat 50) (Char.ofNat 64),
    Key.mk (Char.ofNat 51) (Char.ofNat 35),
    Key.mk (Char.ofNat 52) (Char.ofNat 36),
    Key.mk (Char.ofNat 53) (Char.ofNat 37),
    Key.mk (Char.ofNat 54) (Char.ofNat 94),
    Key.mk (Char.ofNat 55) (Char.ofNat 38),
    Key.mk (Char.ofNat 56) (Char.ofNat 42),
    Key.mk (Char.ofNat 57) (Char.ofNat 40),
    Key.mk (Char.ofNat 48) (Char.ofNat 41),
    Key.mk (Char.ofNat 45) (Char.ofNat 95),
    Key.mk (Char.ofNat 61) (Char.ofNat 43),
    Key.mk (Char.ofNat 91) (Char.ofNat 123),
    Key.mk (Char.ofNat 93) (Char.ofNat 125),
    Key.mk (Char.ofNat 92) (Char.ofNat 124),
    Key.mk (Char.ofNat 59) (Char.ofNat 58),
    Key.mk (Char.ofNat 39) (Char.ofNat 34),
    Key.mk (Char.ofNat 44) (Char.ofNat 60),
    Key.mk (Char.ofNat 46) (Char.ofNat 62),
    Key.mk (Char.ofNat 47) (Char.ofNat 63) ]
  [ (Key.mk (Char.ofNat 96) (Char.ofNat 126), Key.mk (Char.ofNat 49) (Char.ofNat 33), Edge.mk Direction.Next Direction.Same),
    (Key.mk (Char.ofNat 49) (Char.ofNat 33), Key.mk (Char.ofNat 96) (Char.ofNat 126), Edge.mk Direction.Previous Direction.Same),
    (Key.mk (Char.ofNat 49) (Char.ofNat 33), Key.mk (Char.ofNat 50) (Char.ofNat 64), Edge.mk Direction.Next Direction.Same),
    (Key.mk (Char.ofNat 49) (Char.ofNat 33), Key.mk (Char.ofNat 113) (Char.ofNat 81), Edge.mk Direction.Same Direction.Next),
    (Key.mk (Char.ofNat 50) (Char.ofNat 64), Key.mk (Char.ofNat 49) (Char.ofNat 33), Edge.mk Direction.Previous Direction.Same),
    (Key.mk (Char.ofNat 50) (Char.ofNat 64), Key.mk (Char.ofNat 51) (Char.ofNat 35), Edge.mk Direction.Next Direction.Same),
    (Key.mk (Char.ofNat 50) (Char.ofNat 64), Key.mk (Char.ofNat 119) (Char.ofNat 87), Edge.mk Direction.Same Direction.Next),
    (Key.mk (Char.ofNat 50) (Char.ofNat 64), Key.mk (Char.ofNat 113) (Char.ofNat 81), Edge.mk Direction.Previous Direction.Next),
    (Key.mk (Char.ofNat 51) (Char.ofNat 35), Key.mk (Char.ofNat 50) (Char.ofNat 64), Edge.mk Direction.Previous Direction.Same),
    (Key.mk (Char.ofNat 51) (Char.ofNat 35), Key.mk (Char.ofNat 52) (Char.ofNat 36), Edge.mk Direction.Next Direction.Same),
    (Key.mk (Char.ofNat 51) (Char.ofNat 35), Key.mk (Char.ofNat 101) (Char.ofNat 69), Edge.mk Direction.Same Direction.Next),
    (Key.mk (Char.ofNat 51) (Char.ofNat 35), Key.mk (Char.ofNat 119) (Char.ofNat 87), Edge.mk Direction.Previous Direction.Next),
    (Key.mk (Char.ofNat 52) (Char.ofNat 36), Key.mk (Char.ofNat 51) (Char.ofNat 35), Edge.mk Direction.Previous Direction.Same),
    (Key.mk (Char.ofNat 52) (Char.ofNat 36), Key.mk (Char.ofNat 53) (Char.ofNat 37), Edge.mk Direction.Next Direction.Same),
    (Key.mk (Char.ofNat 52) (Char.ofNat 36), Key.mk (Char.ofNat 114) (Char.ofNat 82), Edge.mk Direction.Same Direction.Next),
    (Key.mk (Char.ofNat 52) (Char.ofNat 36), Key.mk (Char.ofNat 101) (Char.ofNat 69), Edge.mk Direction.Previous Direction.Next),
    (Key.mk (Char.ofNat 53) (Char.ofNat 37), Key.mk (Char.ofNat 52) (Char.ofNat 36), Edge.mk Direction.Previous Direction.Same),
    (Key.mk (Char.ofNat 53) (Char.ofNat 37), Key.mk (Char.ofNat 54) (Char.ofNat 94), Edge.mk Direction.Next Direction.Same),
    (Key.mk (Char.ofNat 53) (Char.ofNat 37), Key.mk (Char.ofNat 116) (Char.ofNat 84), Edge.mk Direction.Same Direction.Next),
    (Key.mk (Char.ofNat 53) (Char.ofNat 37), Key.mk (Char.ofNat 114) (Char.ofNat 82), Edge.mk Direction.Previous Direction.Next),
    (Key.mk (Char.ofNat 54) (Char.ofNat 94), Key.mk (Char.ofNat 53) (Char.ofNat 37), Edge.mk Direction.Previous Direction.Same),
    (Key.mk (Char.ofNat 54) (Char.ofNat 94), Key.mk (Char.ofNat 55) (Char.ofNat 38), Edge.mk Direction.Next Direction.Same),
    (Key.mk (Char.ofNat 54) (Char.ofNat 94), Key.mk (Char.ofNat 121) (Char.ofNat 89), Edge.mk Direction.Same Direction.Next),
    (Key.mk (Char.ofNat 54) (Char.ofNat 94), Key.mk (Char.ofNat 116) (Char.ofNat 84), Edge.mk Direction.Previous Direction.Next),
    (Key.mk (Char.ofNat 55) (Char.ofNat 38), Key.mk (Char.ofNat 54) (Char.ofNat 94), Edge.mk Direction.Previous Direction.Same),
    (Key.mk (Char.ofNat 55) (Char.ofNat 38), Key.mk (Char.ofNat 56) (Char.ofNat 42), Edge.mk Direction.Next Direction.Same),
    (Key.mk (Char.ofNat 55) (Char.ofNat 38), Key.mk (Char.ofNat 117) (Char.ofNat 85), Edge.mk Direction.Same Direction.Next),
    (Key.mk (Char.ofNat 55) (Char.ofNat 38), Key.mk (Char.ofNat 121) (Char.ofNat 89), Edge.mk Direction.Previous Direction.Next),
    (Key.mk (Char.ofNat 56) (Char.ofNat 42), Key.mk (Char.ofNat 55) (Char.ofNat 38), Edge.mk Direction.Previous Direction.Same),
    (Key.mk (Char.ofNat 56) (Char.ofNat 42), Key.mk (Char.ofNat 57) (Char.ofNat 40), Edge.mk Direction.Next Direction.Same),
    (Key.mk (Char.ofNat 56) (Char.ofNat 42), Key.mk (Char.ofNat 105) (Char.ofNat 73), Edge.mk Direction.Same Direction.Next),
    (Key.mk (Char.ofNat 56) (Char.ofNat 42), Key.mk (Char.ofNat 117) (Char.ofNat 85), Edge.mk Direction.Previous Direction.Next),
    (Key.mk (Char.ofNat 57) (Char.ofNat 40), Key.mk (Char.ofNat 56) (Char.ofNat 42), Edge.mk Direction.Previous Direction.Same),
    (Key.mk (Char.ofNat 57) (Char.ofNat 40), Key.mk (Char.ofNat 48) (Char.ofNat 41), Edge.mk Direction.Next Direction.Same),
    (Key.mk (Char.ofNat 57) (Char.ofNat 40), Key.mk (Char.ofNat 111) (Char.ofNat 79), Edge.mk Direction.Same Direction.Next),
    (Key.mk (Char.ofNat 57) (Char.ofNat 40), Key.mk (Char.ofNat 105) (Char.ofNat 73), Edge.mk Direction.Previous Direction.Next),
    (Key.mk (Char.ofNat 48) (Char.ofNat 41), Key.mk (Char.ofNat 57) (Char.ofNat 40), Edge.mk Direction.Previous Direction.Same),
    (Key.mk (Char.ofNat 48) (Char.ofNat 41), Key.mk (Char.ofNat 45) (Char.ofNat 95), Edge.mk Direction.Next Direction.Same),
    (Key.mk (Char.ofNat 48) (Char.ofNat 41), Key.mk (Char.ofNat 112) (Char.ofNat 80), Edge.mk Direction.Same Direction.Next),
    (Key.mk (Char.ofNat 48) (Char.ofNat 41), Key.mk (Char.ofNat 111) (Char.ofNat 79), Edge.mk Direction.Previous Direction.Next),
    (Key.mk (Char.ofNat 45) (Char.ofNat 95), Key.mk (Char.ofNat 48) (Char.ofNat 41), Edge.mk Direction.Previous Direction.Same),
    (Key.mk (Char.ofNat 45) (Char.ofNat 95), Key.mk (Char.ofNat 61) (Char.ofNat 43), Edge.mk Direction.Next Direction.Same),
    (Key.mk (Char.ofNat 45) (Char.ofNat 95), Key.mk (Char.ofNat 91) (Char.ofNat 123), Edge.mk Direction.Same Direction.Next),
    (Key.mk (Char.ofNat 45) (Char.ofNat 95), Key.mk (Char.ofNat 112) (Char.ofNat 80), Edge.mk Direction.Previous Direction.Next),
    (Key.mk (Char.ofNat 61) (Char.ofNat 43), Key.mk (Char.ofNat 45) (Char.ofNat 95), Edge.mk Direction.Previous Direction.Same),
    (Key.mk (Char.ofNat 61) (Char.ofNat 43), Key.mk (Char.ofNat 93) (Char.ofNat 125), Edge.mk Direction.Same Direction.Next),
    (Key.mk (Char.ofNat 61) (Char.ofNat 43), Key.mk (Char.ofNat 91) (Char.ofNat 123), Edge.mk Direction.Previous Direction.Next),
    (Key.mk (Char.ofNat 113) (Char.ofNat 81), Key.mk (Char.ofNat 49) (Char.ofNat 33), Edge.mk Direction.Same Direction.Previous),
    (Key.mk (Char.ofNat 113) (Char.ofNat 81), Key.mk (Char.ofNat 50) (Char.ofNat 64), Edge.mk Direction.Next Direction.Previous),
    (Key.mk (Char.ofNat 113) (Char.ofNat 81), Key.mk (Char.ofNat 119) (Char.ofNat 87), Edge.mk Direction.Next Direction.Same),
    (Key.mk (Char.ofNat 113) (Char.ofNat 81), Key.mk (Char.ofNat 97) (Char.ofNat 65), Edge.mk Direction.Same Direction.Next),
    (Key.mk (Char.ofNat 119) (Char.ofNat 87), Key.mk (Char.ofNat 113) (Char.ofNat 81), Edge.mk Direction.Previous Direction.Same),
    (Key.mk (Char.ofNat 119) (Char.ofNat 87), Key.mk (Char.ofNat 50) (Char.ofNat 64), Edge.mk Direction.Same Direction.Previous),
    (Key.mk (Char.ofNat 119) (Char.ofNat 87), Key.mk (Char.ofNat 51) (Char.ofNat 35), Edge.mk Direction.Next Direction.Previous),
    (Key.mk (Char.ofNat 119) (Char.ofNat 87), Key.mk (Char.ofNat 101) (Char.ofNat 69), Edge.mk Direction.Next Direction.Same),
    (Key.mk (Char.ofNat 119) (Char.ofNat 87), Key.mk (Char.ofNat 115) (Char.ofNat 83), Edge.mk Direction.Same Direction.Next),
    (Key.mk (Char.ofNat 119) (Char.ofNat 87), Key.mk (Char.ofNat 97) (Char.ofNat 65), Edge.mk Direction.Previous Direction.Next),
    (Key.mk (Char.ofNat 101) (Char.ofNat 69), Key.mk (Char.ofNat 119) (Char.ofNat 87), Edge.mk Direction.Previous Direction.Same),
    (Key.mk (Char.ofNat 101) (Char.ofNat 69), Key.mk (Char.ofNat 51) (Char.ofNat 35), Edge.mk Direction.Same Direction.Previous),
    (Key.mk (Char.ofNat 101) (Char.ofNat 69), Key.mk (Char.ofNat 52) (Char.ofNat 36), Edge.mk Direction.Next Direction.Previous),
    (Key.mk (Char.ofNat 101) (Char.ofNat 69), Key.mk (Char.ofNat 114) (Char.ofNat 82), Edge.mk Direction.Next Direction.Same),
    (Key.mk (Char.ofNat 101) (Char.ofNat 69), Key.mk (Char.ofNat 100) (Char.ofNat 68), Edge.mk Direction.Same Direction.Next),
    (Key.mk (Char.ofNat 101) (Char.ofNat 69), Key.mk (Char.ofNat 115) (Char.ofNat 83), Edge.mk Direction.Previous Direction.Next),
    (Key.mk (Char.ofNat 114) (Char.ofNat 82), Key.mk (Char.ofNat 101) (Char.ofNat 69), Edge.mk Direction.Previous Direction.Same),
    (Key.mk (Char.ofNat 114) (Char.ofNat 82), Key.mk (Char.ofNat 52) (Char.ofNat 36), Edge.mk Direction.Same Direction.Previous),
    (Key.mk (Char.ofNat 114) (Char.ofNat 82), Key.mk (Char.ofNat 53) (Char.ofNat 37), Edge.mk Direction.Next Direction.Previous),
    (Key.mk (Char.ofNat 114) (Char.ofNat 82), Key.mk (Char.ofNat 116) (Char.ofNat 84), Edge.mk Direction.Next Direction.Same),
    (Key.mk (Char.ofNat 114) (Char.ofNat 82), Key.mk (Char.ofNat 102) (Char.ofNat 70), Edge.mk Direction.Same Direction.Next),
    (Key.mk (Char.ofNat 114) (Char.ofNat 82), Key.mk (Char.ofNat 100) (Char.ofNat 68), Edge.mk Direction.Previous Direction.Next),
    (Key.mk (Char.ofNat 116) (Char.ofNat 84), Key.mk (Char.ofNat 114) (Char.ofNat 82), Edge.mk Direction.Previous Direction.Same),
    (Key.mk (Char.ofNat 116) (Char.ofNat 84), Key.mk (Char.ofNat 53) (Char.ofNat 37), Edge.mk Direction.Same Direction.Previous),
    (Key.mk (Char.ofNat 116) (Char.ofNat 84), Key.mk (Char.ofNat 54) (Char.ofNat 94), Edge.mk Direction.Next Direction.Previous),
    (Key.mk (Char.ofNat 116) (Char.ofNat 84), Key.mk (Char.ofNat 121) (Char.ofNat 89), Edge.mk Direction.Next Direction.Same),
    (Key.mk (Char.ofNat 116) (Char.ofNat 84), Key.mk (Char.ofNat 103) (Char.ofNat 71), Edge.mk Direction.Same Direction.Next),
    (Key.mk (Char.ofNat 116) (Char.ofNat 84), Key.mk (Char.ofNat 102) (Char.ofNat 70), Edge.mk Direction.Previous Direction.Next),
    (Key.mk (Char.ofNat 121) (Char.ofNat 89), Key.mk (Char.ofNat 116) (Char.ofNat 84), Edge.mk Direction.Previous Direction.Same),
    (Key.mk (Char.ofNat 121) (Char.ofNat 89), Key.mk (Char.ofNat 54) (Char.ofNat 94), Edge.mk Direction.Same Direction.Previous),
    (Key.mk (Char.ofNat 121) (Char.ofNat 89), Key.mk (Char.ofNat 55) (Char.ofNat 38), Edge.mk Direction.Next Direction.Previous),
    (Key.mk (Char.ofNat 121) (Char.ofNat 89), Key.mk (Char.ofNat 117) (Char.ofNat 85), Edge.mk Direction.Next Direction.Same),
    (Key.mk (Char.ofNat 121) (Char.ofNat 89), Key.mk (Char.ofNat 104) (Char.ofNat 72), Edge.mk Direction.Same Direction.Next),
    (Key.mk (Char.ofNat 121) (Char.ofNat 89), Key.mk (Char.ofNat 103) (Char.ofNat 71), Edge.mk Direction.Previous Direction.Next),
    (Key.mk (Char.ofNat 117) (Char.ofNat 85), Key.mk (Char.ofNat 121) (Char.ofNat 89), Edge.mk Direction.Previous Direction.Same),
    (Key.mk (Char.ofNat 117) (Char.ofNat 85), Key.mk (Char.ofNat 55) (Char.ofNat 38), Edge.mk Direction.Same Direction.Previous),
    (Key.mk (Char.ofNat 117) (Char.ofNat 85), Key.mk (Char.ofNat 56) (Char.ofNat 42), Edge.mk Direction.Next Direction.Previous),
    (Key.mk (Char.ofNat 117) (Char.ofNat 85), Key.mk (Char.ofNat 105) (Char.ofNat 73), Edge.mk Direction.Next Direction.Same),
    (Key.mk (Char.ofNat 117) (Char.ofNat 85), Key.mk (Char.ofNat 106) (Char.ofNat 74), Edge.mk Direction.Same Direction.Next),
    (Key.mk (Char.ofNat 117) (Char.ofNat 85), Key.mk (Char.ofNat 104) (Char.ofNat 72), Edge.mk Direction.Previous Direction.Next),
    (Key.mk (Char.ofNat 105) (Char.ofNat 73), Key.mk (Char.ofNat 117) (Char.ofNat 85), Edge.mk Direction.Previous Direction.Same),
    (Key.mk (Char.ofNat 105) (Char.ofNat 73), Key.mk (Char.ofNat 56) (Char.ofNat 42), Edge.mk Direction.Same Direction.Previous),
    (Key.mk (Char.ofNat 105) (Char.ofNat 73), Key.mk (Char.ofNat 57) (Char.ofNat 40), Edge.mk Direction.Next Direction.Previous),
    (Key.mk (Char.ofNat 105) (Char.ofNat 73), Key.mk (Char.ofNat 111) (Char.ofNat 79), Edge.mk Direction.Next Direction.Same),
    (Key.mk (Char.ofNat 105) (Char.ofNat 73), Key.mk (Char.ofNat 107) (Char.ofNat 75), Edge.mk Direction.Same Direction.Next),
    (Key.mk (Char.ofNat 105) (Char.ofNat 73), Key.mk (Char.ofNat 106) (Char.ofNat 74), Edge.mk Direction.Previous Direction.Next),
    (Key.mk (Char.ofNat 111) (Char.ofNat 79), Key.mk (Char.ofNat 105) (Char.ofNat 73), Edge.mk Direction.Previous Direction.Same),
    (Key.mk (Char.ofNat 111) (Char.ofNat 79), Key.mk (Char.ofNat 57) (Char.ofNat 40), Edge.mk Direction.Same Direction.Previous),
    (Key.mk (Char.ofNat 111) (Char.ofNat 79), Key.mk (Char.ofNat 48) (Char.ofNat 41), Edge.mk Direction.Next Direction.Previous),
    (Key.mk (Char.ofNat 111) (Char.ofNat 79), Key.mk (Char.ofNat 112) (Char.ofNat 80), Edge.mk Direction.Next Direction.Same),
    (Key.mk (Char.ofNat 111) (Char.ofNat 79), Key.mk (Char.ofNat 108) (Char.ofNat 76), Edge.mk Direction.Same Direction.Next),
    (Key.mk (Char.ofNat 111) (Char.ofNat 79), Key.mk (Char.ofNat 107) (Char.ofNat 75), Edge.mk Direction.Previous Direction.Next),
    (Key.mk (Char.ofNat 112) (Char.ofNat 80), Key.mk (Char.ofNat 111) (Char.ofNat 79), Edge.mk Direction.Previous Direction.Same),
    (Key.mk (Char.ofNat 112) (Char.ofNat 80), Key.mk (Char.ofNat 48) (Char.ofNat 41), Edge.mk Direction.Same Direction.Previous),
    (Key.mk (Char.ofNat 112) (Char.ofNat 80), Key.mk (Char.ofNat 45) (Char.ofNat 95), Edge.mk Direction.Next Direction.Previous),
    (Key.mk (Char.ofNat 112) (Char.ofNat 80), Key.mk (Char.ofNat 91) (Char.ofNat 123), Edge.mk Direction.Next Direction.Same),
    (Key.mk (Char.ofNat 112) (Char.ofNat 80), Key.mk (Char.ofNat 59) (Char.ofNat 58), Edge.mk Direction.Same Direction.Next),
    (Key.mk (Char.ofNat 112) (Char.ofNat 80), Key.mk (Char.ofNat 108) (Char.ofNat 76), Edge.mk Direction.Previous Direction.Next),
    (Key.mk (Char.ofNat 91) (Char.ofNat 123), Key.mk (Char.ofNat 112) (Char.ofNat 80), Edge.mk Direction.Previous Direction.Same),
    (Key.mk (Char.ofNat 91) (Char.ofNat 123), Key.mk (Char.ofNat 45) (Char.ofNat 95), Edge.mk Direction.Same Direction.Previous),
    (Key.mk (Char.ofNat 91) (Char.ofNat 123), Key.mk (Char.ofNat 61) (Char.ofNat 43), Edge.mk Direction.Next Direction.Previous),
    (Key.mk (Char.ofNat 91) (Char.ofNat 123), Key.mk (Char.ofNat 93) (Char.ofNat 125), Edge.mk Direction.Next Direction.Same),
    (Key.mk (Char.ofNat 91) (Char.ofNat 123), Key.mk (Char.ofNat 39) (Char.ofNat 34), Edge.mk Direction.Same Direction.Next),
    (Key.mk (Char.ofNat 91) (Char.ofNat 123), Key.mk (Char.ofNat 59) (Char.ofNat 58), Edge.mk Direction.Previous Direction.Next),
    (Key.mk (Char.ofNat 93) (Char.ofNat 125), Key.mk (Char.ofNat 91) (Char.ofNat 123), Edge.mk Direction.Previous Direction.Same),
    (Key.mk (Char.ofNat 93) (Char.ofNat 125), Key.mk (Char.ofNat 61) (Char.ofNat 43), Edge.mk Direction.Same Direction.Previous),
    (Key.mk (Char.ofNat 93) (Char.ofNat 125), Key.mk (Char.ofNat 92) (Char.ofNat 124), Edge.mk Direction.Next Direction.Same),
    (Key.mk (Char.ofNat 93) (Char.ofNat 125), Key.mk (Char.ofNat 39) (Char.ofNat 34), Edge.mk Direction.Previous Direction.Next),
    (Key.mk (Char.ofNat 92) (Char.ofNat 124), Key.mk (Char.ofNat 93) (Char.ofNat 125), Edge.mk Direction.Previous Direction.Same),
    (Key.mk (Char.ofNat 97) (Char.ofNat 65), Key.mk (Char.ofNat 113) (Char.ofNat 81), Edge.mk Direction.Same Direction.Previous),
    (Key.mk (Char.ofNat 97) (Char.ofNat 65), Key.mk (Char.ofNat 119) (Char.ofNat 87), Edge.mk Direction.Next Direction.Previous),
    (Key.mk (Char.ofNat 97) (Char.ofNat 65), Key.mk (Char.ofNat 115) (Char.ofNat 83), Edge.mk Direction.Next Direction.Same),
    (Key.mk (Char.ofNat 97) (Char.ofNat 65), Key.mk (Char.ofNat 122) (Char.ofNat 90), Edge.mk Direction.Same Direction.Next),
    (Key.mk (Char.ofNat 115) (Char.ofNat 83), Key.mk (Char.ofNat 97) (Char.ofNat 65), Edge.mk Direction.Previous Direction.Same),
    (Key.mk (Char.ofNat 115) (Char.ofNat 83), Key.mk (Char.ofNat 119) (Char.ofNat 87), Edge.mk Direction.Same Direction.Previous),
    (Key.mk (Char.ofNat 115) (Char.ofNat 83), Key.mk (Char.ofNat 101) (Char.ofNat 69), Edge.mk Direction.Next Direction.Previous),
    (Key.mk (Char.ofNat 115) (Char.ofNat 83), Key.mk (Char.ofNat 100) (Char.ofNat 68), Edge.mk Direction.Next Direction.Same),
    (Key.mk (Char.ofNat 115) (Char.ofNat 83), Key.mk (Char.ofNat 120) (Char.ofNat 88), Edge.mk Direction.Same Direction.Next),
    (Key.mk (Char.ofNat 115) (Char.ofNat 83), Key.mk (Char.ofNat 122) (Char.ofNat 90), Edge.mk Direction.Previous Direction.Next),
    (Key.mk (Char.ofNat 100) (Char.ofNat 68), Key.mk (Char.ofNat 115) (Char.ofNat 83), Edge.mk Direction.Previous Direction.Same),
    (Key.mk (Char.ofNat 100) (Char.ofNat 68), Key.mk (Char.ofNat 101) (Char.ofNat 69), Edge.mk Direction.Same Direction.Previous),
    (Key.mk (Char.ofNat 100) (Char.ofNat 68), Key.mk (Char.ofNat 114) (Char.ofNat 82), Edge.mk Direction.Next Direction.Previous),
    (Key.mk (Char.ofNat 100) (Char.ofNat 68), Key.mk (Char.ofNat 102) (Char.ofNat 70), Edge.mk Direction.Next Direction.Same),
    (Key.mk (Char.ofNat 100) (Char.ofNat 68), Key.mk (Char.ofNat 99) (Char.ofNat 67), Edge.mk Direction.Same Direction.Next),
    (Key.mk (Char.ofNat 100) (Char.ofNat 68), Key.mk (Char.ofNat 120) (Char.ofNat 88), Edge.mk Direction.Previous Direction.Next),
    (Key.mk (Char.ofNat 102) (Char.ofNat 70), Key.mk (Char.ofNat 100) (Char.ofNat 68), Edge.mk Direction.Previous Direction.Same),
    (Key.mk (Char.ofNat 102) (Char.ofNat 70), Key.mk (Char.ofNat 114) (Char.ofNat 82), Edge.mk Direction.Same Direction.Previous),
    (Key.mk (Char.ofNat 102) (Char.ofNat 70), Key.mk (Char.ofNat 116) (Char.ofNat 84), Edge.mk Direction.Next Direction.Previous),
    (Key.mk (Char.ofNat 102) (Char.ofNat 70), Key.mk (Char.ofNat 103) (Char.ofNat 71), Edge.mk Direction.Next Direction.Same),
    (Key.mk (Char.ofNat 102) (Char.ofNat 70), Key.mk (Char.ofNat 118) (Char.ofNat 86), Edge.mk Direction.Same Direction.Next),
    (Key.mk (Char.ofNat 102) (Char.ofNat 70), Key.mk (Char.ofNat 99) (Char.ofNat 67), Edge.mk Direction.Previous Direction.Next),
    (Key.mk (Char.ofNat 103) (Char.ofNat 71), Key.mk (Char.ofNat 102) (Char.ofNat 70), Edge.mk Direction.Previous Direction.Same),
    (Key.mk (Char.ofNat 103) (Char.ofNat 71), Key.mk (Char.ofNat 116) (Char.ofNat 84), Edge.mk Direction.Same Direction.Previous),
    (Key.mk (Char.ofNat 103) (Char.ofNat 71), Key.mk (Char.ofNat 121) (Char.ofNat 89), Edge.mk Direction.Next Direction.Previous),
    (Key.mk (Char.ofNat 103) (Char.ofNat 71), Key.mk (Char.ofNat 104) (Char.ofNat 72), Edge.mk Direction.Next Direction.Same),
    (Key.mk (Char.ofNat 103) (Char.ofNat 71), Key.mk (Char.ofNat 98) (Char.ofNat 66), Edge.mk Direction.Same Direction.Next),
    (Key.mk (Char.ofNat 103) (Char.ofNat 71), Key.mk (Char.ofNat 118) (Char.ofNat 86), Edge.mk Direction.Previous Direction.Next),
    (Key.mk (Char.ofNat 104) (Char.ofNat 72), Key.mk (Char.ofNat 103) (Char.ofNat 71), Edge.mk Direction.Previous Direction.Same),
    (Key.mk (Char.ofNat 104) (Char.ofNat 72), Key.mk (Char.ofNat 121) (Char.ofNat 89), Edge.mk Direction.Same Direction.Previous),
    (Key.mk (Char.ofNat 104) (Char.ofNat 72), Key.mk (Char.ofNat 117) (Char.ofNat 85), Edge.mk Direction.Next Direction.Previous),
    (Key.mk (Char.ofNat 104) (Char.ofNat 72), Key.mk (Char.ofNat 106) (Char.ofNat 74), Edge.mk Direction.Next Direction.Same),
    (Key.mk (Char.ofNat 104) (Char.ofNat 72), Key.mk (Char.ofNat 110) (Char.ofNat 78), Edge.mk Direction.Same Direction.Next),
    (Key.mk (Char.ofNat 104) (Char.ofNat 72), Key.mk (Char.ofNat 98) (Char.ofNat 66), Edge.mk Direction.Previous Direction.Next),
    (Key.mk (Char.ofNat 106) (Char.ofNat 74), Key.mk (Char.ofNat 104) (Char.ofNat 72), Edge.mk Direction.Previous Direction.Same),
    (Key.mk (Char.ofNat 106) (Char.ofNat 74), Key.mk (Char.ofNat 117) (Char.ofNat 85), Edge.mk Direction.Same Direction.Previous),
    (Key.mk (Char.ofNat 106) (Char.ofNat 74), Key.mk (Char.ofNat 105) (Char.ofNat 73), Edge.mk Direction.Next Direction.Previous),
    (Key.mk (Char.ofNat 106) (Char.ofNat 74), Key.mk (Char.ofNat 107) (Char.ofNat 75), Edge.mk Direction.Next Direction.Same),
    (Key.mk (Char.ofNat 106) (Char.ofNat 74), Key.mk (Char.ofNat 109) (Char.ofNat 77), Edge.mk Direction.Same Direction.Next),
    (Key.mk (Char.ofNat 106) (Char.ofNat 74), Key.mk (Char.ofNat 110) (Char.ofNat 78), Edge.mk Direction.Previous Direction.Next),
    (Key.mk (Char.ofNat 107) (Char.ofNat 75), Key.mk (Char.ofNat 106) (Char.ofNat 74), Edge.mk Direction.Previous Direction.Same),
    (Key.mk (Char.ofNat 107) (Char.ofNat 75), Key.mk (Char.ofNat 105) (Char.ofNat 73), Edge.mk Direction.Same Direction.Previous),
    (Key.mk (Char.ofNat 107) (Char.ofNat 75), Key.mk (Char.ofNat 111) (Char.ofNat 79), Edge.mk Direction.Next Direction.Previous),
    (Key.mk (Char.ofNat 107) (Char.ofNat 75), Key.mk (Char.ofNat 108) (Char.ofNat 76), Edge.mk Direction.Next Direction.Same),
    (Key.mk (Char.ofNat 107) (Char.ofNat 75), Key.mk (Char.ofNat 44) (Char.ofNat 60), Edge.mk Direction.Same Direction.Next),
    (Key.mk (Char.ofNat 107) (Char.ofNat 75), Key.mk (Char.ofNat 109) (Char.ofNat 77), Edge.mk Direction.Previous Direction.Next),
    (Key.mk (Char.ofNat 108) (Char.ofNat 76), Key.mk (Char.ofNat 107) (Char.ofNat 75), Edge.mk Direction.Previous Direction.Same),
    (Key.mk (Char.ofNat 108) (Char.ofNat 76), Key.mk (Char.ofNat 111) (Char.ofNat 79), Edge.mk Direction.Same Direction.Previous),
    (Key.mk (Char.ofNat 108) (Char.ofNat 76), Key.mk (Char.ofNat 112) (Char.ofNat 80), Edge.mk Direction.Next Direction.Previous),
    (Key.mk (Char.ofNat 108) (Char.ofNat 76), Key.mk (Char.ofNat 59) (Char.ofNat 58), Edge.mk Direction.Next Direction.Same),
    (Key.mk (Char.ofNat 108) (Char.ofNat 76), Key.mk (Char.ofNat 46) (Char.ofNat 62), Edge.mk Direction.Same Direction.Next),
    (Key.mk (Char.ofNat 108) (Char.ofNat 76), Key.mk (Char.ofNat 44) (Char.ofNat 60), Edge.mk Direction.Previous Direction.Next),
    (Key.mk (Char.ofNat 59) (Char.ofNat 58), Key.mk (Char.ofNat 108) (Char.ofNat 76), Edge.mk Direction.Previous Direction.Same),
    (Key.mk (Char.ofNat 59) (Char.ofNat 58), Key.mk (Char.ofNat 112) (Char.ofNat 80), Edge.mk Direction.Same Direction.Previous),
    (Key.mk (Char.ofNat 59) (Char.ofNat 58), Key.mk (Char.ofNat 91) (Char.ofNat 123), Edge.mk Direction.Next Direction.Previous),
    (Key.mk (Char.ofNat 59) (Char.ofNat 58), Key.mk (Char.ofNat 39) (Char.ofNat 34), Edge.mk Direction.Next Direction.Same),
    (Key.mk (Char.ofNat 59) (Char.ofNat 58), Key.mk (Char.ofNat 47) (Char.ofNat 63), Edge.mk Direction.Same Direction.Next),
    (Key.mk (Char.ofNat 59) (Char.ofNat 58), Key.mk (Char.ofNat 46) (Char.ofNat 62), Edge.mk Direction.Previous Direction.Next),
    (Key.mk (Char.ofNat 39) (Char.ofNat 34), Key.mk (Char.ofNat 59) (Char.ofNat 58), Edge.mk Direction.Previous Direction.Same),
    (Key.mk (Char.ofNat 39) (Char.ofNat 34), Key.mk (Char.ofNat 91) (Char.ofNat 123), Edge.mk Direction.Same Direction.Previous),
    (Key.mk (Char.ofNat 39) (Char.ofNat 34), Key.mk (Char.ofNat 93) (Char.ofNat 125), Edge.mk Direction.Next Direction.Previous),
    (Key.mk (Char.ofNat 39) (Char.ofNat 34), Key.mk (Char.ofNat 47) (Char.ofNat 63), Edge.mk Direction.Previous Direction.Next),
    (Key.mk (Char.ofNat 122) (Char.ofNat 90), Key.mk (Char.ofNat 97) (Char.ofNat 65), Edge.mk Direction.Same Direction.Previous),
    (Key.mk (Char.ofNat 122) (Char.ofNat 90), Key.mk (Char.ofNat 115) (Char.ofNat 83), Edge.mk Direction.Next Direction.Previous),
    (Key.mk (Char.ofNat 122) (Char.ofNat 90), Key.mk (Char.ofNat 120) (Char.ofNat 88), Edge.mk Direction.Next Direction.Same),
    (Key.mk (Char.ofNat 120) (Char.ofNat 88), Key.mk (Char.ofNat 122) (Char.ofNat 90), Edge.mk Direction.Previous Direction.Same),
    (Key.mk (Char.ofNat 120) (Char.ofNat 88), Key.mk (Char.ofNat 115) (Char.ofNat 83), Edge.mk Direction.Same Direction.Previous),
    (Key.mk (Char.ofNat 120) (Char.ofNat 88), Key.mk (Char.ofNat 100) (Char.ofNat 68), Edge.mk Direction.Next Direction.Previous),
    (Key.mk (Char.ofNat 120) (Char.ofNat 88), Key.mk (Char.ofNat 99) (Char.ofNat 67), Edge.mk Direction.Next Direction.Same),
    (Key.mk (Char.ofNat 99) (Char.ofNat 67), Key.mk (Char.ofNat 120) (Char.ofNat 88), Edge.mk Direction.Previous Direction.Same),
    (Key.mk (Char.ofNat 99) (Char.ofNat 67), Key.mk (Char.ofNat 100) (Char.ofNat 68), Edge.mk Direction.Same Direction.Previous),
    (Key.mk (Char.ofNat 99) (Char.ofNat 67), Key.mk (Char.ofNat 102) (Char.ofNat 70), Edge.mk Direction.Next Direction.Previous),
    (Key.mk (Char.ofNat 99) (Char.ofNat 67), Key.mk (Char.ofNat 118) (Char.ofNat 86), Edge.mk Direction.Next Direction.Same),
    (Key.mk (Char.ofNat 118) (Char.ofNat 86), Key.mk (Char.ofNat 99) (Char.ofNat 67), Edge.mk Direction.Previous Direction.Same),
    (Key.mk (Char.ofNat 118) (Char.ofNat 86), Key.mk (Char.ofNat 102) (Char.ofNat 70), Edge.mk Direction.Same Direction.Previous),
    (Key.mk (Char.ofNat 118) (Char.ofNat 86), Key.mk (Char.ofNat 103) (Char.ofNat 71), Edge.mk Direction.Next Direction.Previous),
    (Key.mk (Char.ofNat 118) (Char.ofNat 86), Key.mk (Char.ofNat 98) (Char.ofNat 66), Edge.mk Direction.Next Direction.Same),
    (Key.mk (Char.ofNat 98) (Char.ofNat 66), Key.mk (Char.ofNat 118) (Char.ofNat 86), Edge.mk Direction.Previous Direction.Same),
    (Key.mk (Char.ofNat 98) (Char.ofNat 66), Key.mk (Char.ofNat 103) (Char.ofNat 71), Edge.mk Direction.Same Direction.Previous),
    (Key.mk (Char.ofNat 98) (Char.ofNat 66), Key.mk (Char.ofNat 104) (Char.ofNat 72), Edge.mk Direction.Next Direction.Previous),
    (Key.mk (Char.ofNat 98) (Char.ofNat 66), Key.mk (Char.ofNat 110) (Char.ofNat 78), Edge.mk Direction.Next Direction.Same),
    (Key.mk (Char.ofNat 110) (Char.ofNat 78), Key.mk (Char.ofNat 98) (Char.ofNat 66), Edge.mk Direction.Previous Direction.Same),
    (Key.mk (Char.ofNat 110) (Char.ofNat 78), Key.mk (Char.ofNat 104) (Char.ofNat 72), Edge.mk Direction.Same Direction.Previous),
    (Key.mk (Char.ofNat 110) (Char.ofNat 78), Key.mk (Char.ofNat 106) (Char.ofNat 74), Edge.mk Direction.Next Direction.Previous),
    (Key.mk (Char.ofNat 110) (Char.ofNat 78), Key.mk (Char.ofNat 109) (Char.ofNat 77), Edge.mk Direction.Next Direction.Same),
    (Key.mk (Char.ofNat 109) (Char.ofNat 77), Key.mk (Char.ofNat 110) (Char.ofNat 78), Edge.mk Direction.Previous Direction.Same),
    (Key.mk (Char.ofNat 109) (Char.ofNat 77), Key.mk (Char.ofNat 106) (Char.ofNat 74), Edge.mk Direction.Same Direction.Previous),
    (Key.mk (Char.ofNat 109) (Char.ofNat 77), Key.mk (Char.ofNat 107) (Char.ofNat 75), Edge.mk Direction.Next Direction.Previous),
    (Key.mk (Char.ofNat 109) (Char.ofNat 77), Key.mk (Char.ofNat 44) (Char.ofNat 60), Edge.mk Direction.Next Direction.Same),
    (Key.mk (Char.ofNat 44) (Char.ofNat 60), Key.mk (Char.ofNat 109) (Char.ofNat 77), Edge.mk Direction.Previous Direction.Same),
    (Key.mk (Char.ofNat 44) (Char.ofNat 60), Key.mk (Char.ofNat 107) (Char.ofNat 75), Edge.mk Direction.Same Direction.Previous),
    (Key.mk (Char.ofNat 44) (Char.ofNat 60), Key.mk (Char.ofNat 108) (Char.ofNat 76), Edge.mk Direction.Next Direction.Previous),
    (Key.mk (Char.ofNat 44) (Char.ofNat 60), Key.mk (Char.ofNat 46) (Char.ofNat 62), Edge.mk Direction.Next Direction.Same),
    (Key.mk (Char.ofNat 46) (Char.ofNat 62), Key.mk (Char.ofNat 44) (Char.ofNat 60), Edge.mk Direction.Previous Direction.Same),
    (Key.mk (Char.ofNat 46) (Char.ofNat 62), Key.mk (Char.ofNat 108) (Char.ofNat 76), Edge.mk Direction.Same Direction.Previous),
    (Key.mk (Char.ofNat 46) (Char.ofNat 62), Key.mk (Char.ofNat 59) (Char.ofNat 58), Edge.mk Direction.Next Direction.Previous),
    (Key.mk (Char.ofNat 46) (Char.ofNat 62), Key.mk (Char.ofNat 47) (Char.ofNat 63), Edge.mk Direction.Next Direction.Same),
    (Key.mk (Char.ofNat 47) (Char.ofNat 63), Key.mk (Char.ofNat 46) (Char.ofNat 62), Edge.mk Direction.Previous Direction.Same),
    (Key.mk (Char.ofNat 47) (Char.ofNat 63), Key.mk (Char.ofNat 59) (Char.ofNat 58), Edge.mk Direction.Same Direction.Previous),
    (Key.mk (Char.ofNat 47) (Char.ofNat 63), Key.mk (Char.ofNat 39) (Char.ofNat 34), Edge.mk Direction.Next Direction.Previous) ]

/-- Machine-checked explicit form of `DVORAK`. -/
def DVORAK_lit : Graph :=
  Graph.mk
  [ Key.mk (Char.ofNat 97) (Char.ofNat 65),
    Key.mk (Char.ofNat 98) (Char.ofNat 66),
    Key.mk (Char.ofNat 99) (Char.ofNat 67),
    Key.mk (Char.ofNat 100) (Char.ofNat 68),
    Key.mk (Char.ofNat 101) (Char.ofNat 69),
    Key.mk (Char.ofNat 102) (Char.ofNat 70),
    Key.mk (Char.ofNat 103) (Char.ofNat 71),
    Key.mk (Char.ofNat 104) (Char.ofNat 72),
    Key.mk (Char.ofNat 105) (Char.ofNat 73),
    Key.mk (Char.ofNat 106) (Char.ofNat 74),
    Key.mk (Char.ofNat 107) (Char.ofNat 75),
    Key.mk (Char.ofNat 108) (Char.ofNat 76),
    Key.mk (Char.ofNat 109) (Char.ofNat 77),
    Key.mk (Char.ofNat 110) (Char.ofNat 78),
    Key.mk (Char.ofNat 111) (Char.ofNat 79),
    Key.mk (Char.ofNat 112) (Char.ofNat 80),
    Key.mk (Char.ofNat 113) (Char.ofNat 81),
    Key.mk (Char.ofNat 114) (Char.ofNat 82),
    Key.mk (Char.ofNat 115) (Char.ofNat 83),
    Key.mk (Char.ofNat 116) (Char.ofNat 84),
    Key.mk (Char.ofNat 117) (Char.ofNat 85),
    Key.mk (Char.ofNat 118) (Char.ofNat 86),
    Key.mk (Char.ofNat 119) (Char.ofNat 87),
    Key.mk (Char.ofNat 120) (Char.ofNat 88),
    Key.mk (Char.ofNat 121) (Char.ofNat 89),
    Key.mk (Char.ofNat 122) (Char.ofNat 90),
    Key.mk (Char.ofNat 96) (Char.ofNat 126),
    Key.mk (Char.ofNat 49) (Char.ofNat 33),
    Key.mk (Char.ofNat 50) (Char.ofNat 64),
    Key.mk (Char.ofNat 51) (Char.ofNat 35),
    Key.mk (Char.ofNat 52) (Char.ofNat 36),
    Key.mk (Char.ofNat 53) (Char.ofNat 37),
    Key.mk (Char.ofNat 54) (Char.ofNat 94),
    Key.mk (Char.ofNat 55) (Char.ofNat 38),
    Key.mk (Char.ofNat 56) (Char.ofNat 42),
    Key.mk (Char.ofNat 57) (Char.ofNat 40),
    Key.mk (Char.ofNat 48) (Char.ofNat 41),
    Key.mk (Char.ofNat 45) (Char.ofNat 95),
    Key.mk (Char.ofNat 61) (Char.ofNat 43),
    Key.mk (Char.ofNat 91) (Char.ofNat 123),
    Key.mk (Char.ofNat 93) (Char.ofNat 125),
    Key.mk (Char.ofNat 92) (Char.ofNat 124),
    Key.mk (Char.ofNat 59) (Char.ofNat 58),
    Key.mk (Char.ofNat 39) (Char.ofNat 34),
    Key.mk (Char.ofNat 44) (Char.ofNat 60),
    Key.mk (Char.ofNat 46) (Char.ofNat 62),
    Key.mk (Char.ofNat 47) (Char.ofNat 63) ]
  [ (Key.mk (Char.ofNat 96) (Char.ofNat 126), Key.mk (Char.ofNat 49) (Char.ofNat 33), Edge.mk Direction.Next Direction.Same),
    (Key.mk (Char.ofNat 49) (Char.ofNat 33), Key.mk (Char.ofNat 96) (Char.ofNat 126), Edge.mk Direction.Previous Direction.Same),
    (Key.mk (Char.ofNat 49) (Char.ofNat 33), Key.mk (Char.ofNat 50) (Char.ofNat 64), Edge.mk Direction.Next Direction.Same),
    (Key.mk (Char.ofNat 49) (Char.ofNat 33), Key.mk (Char.ofNat 39) (Char.ofNat 34), Edge.mk Direction.Same Direction.Next),
    (Key.mk (Char.ofNat 50) (Char.ofNat 64), Key.mk (Char.ofNat 49) (Char.ofNat 33), Edge.mk Direction.Previous Direction.Same),
    (Key.mk (Char.ofNat 50) (Char.ofNat 64), Key.mk (Char.ofNat 51) (Char.ofNat 35), Edge.mk Direction.Next Direction.Same),
    (Key.mk (Char.ofNat 50) (Char.ofNat 64), Key.mk (Char.ofNat 44) (Char.ofNat 60), Edge.mk Direction.Same Direction.Next),
    (Key.mk (Char.ofNat 50) (Char.ofNat 64), Key.mk (Char.ofNat 39) (Char.ofNat 34), Edge.mk Direction.Previous Direction.Next),
    (Key.mk (Char.ofNat 51) (Char.ofNat 35), Key.mk (Char.ofNat 50) (Char.ofNat 64), Edge.mk Direction.Previous Direction.Same),
    (Key.mk (Char.ofNat 51) (Char.ofNat 35), Key.mk (Char.ofNat 52) (Char.ofNat 36), Edge.mk Direction.Next Direction.Same),
    (Key.mk (Char.ofNat 51) (Char.ofNat 35), Key.mk (Char.ofNat 46) (Char.ofNat 62), Edge.mk Direction.Same Direction.Next),
    (Key.mk (Char.ofNat 51) (Char.ofNat 35), Key.mk (Char.ofNat 44) (Char.ofNat 60), Edge.mk Direction.Previous Direction.Next),
    (Key.mk (Char.ofNat 52) (Char.ofNat 36), Key.mk (Char.ofNat 51) (Char.ofNat 35), Edge.mk Direction.Previous Direction.Same),
    (Key.mk (Char.ofNat 52) (Char.ofNat 36), Key.mk (Char.ofNat 53) (Char.ofNat 37), Edge.mk Direction.Next Direction.Same),
    (Key.mk (Char.ofNat 52) (Char.ofNat 36), Key.mk (Char.ofNat 112) (Char.ofNat 80), Edge.mk Direction.Same Direction.Next),
    (Key.mk (Char.ofNat 52) (Char.ofNat 36), Key.mk (Char.ofNat 46) (Char.ofNat 62), Edge.mk Direction.Previous Direction.Next),
    (Key.mk (Char.ofNat 53) (Char.ofNat 37), Key.mk (Char.ofNat 52) (Char.ofNat 36), Edge.mk Direction.Previous Direction.Same),
    (Key.mk (Char.ofNat 53) (Char.ofNat 37), Key.mk (Char.ofNat 54) (Char.ofNat 94), Edge.mk Direction.Next Direction.Same),
    (Key.mk (Char.ofNat 53) (Char.ofNat 37), Key.mk (Char.ofNat 121) (Char.ofNat 89), Edge.mk Direction.Same Direction.Next),
    (Key.mk (Char.ofNat 53) (Char.ofNat 37), Key.mk (Char.ofNat 112) (Char.ofNat 80), Edge.mk Direction.Previous Direction.Next),
    (Key.mk (Char.ofNat 54) (Char.ofNat 94), Key.mk (Char.ofNat 53) (Char.ofNat 37), Edge.mk Direction.Previous Direction.Same),
    (Key.mk (Char.ofNat 54) (Char.ofNat 94), Key.mk (Char.ofNat 55) (Char.ofNat 38), Edge.mk Direction.Next Direction.Same),
    (Key.mk (Char.ofNat 54) (Char.ofNat 94), Key.mk (Char.ofNat 102) (Char.ofNat 70), Edge.mk Direction.Same Direction.Next),
    (Key.mk (Char.ofNat 54) (Char.ofNat 94), Key.mk (Char.ofNat 121) (Char.ofNat 89), Edge.mk Direction.Previous Direction.Next),
    (Key.mk (Char.ofNat 55) (Char.ofNat 38), Key.mk (Char.ofNat 54) (Char.ofNat 94), Edge.mk Direction.Previous Direction.Same),
    (Key.mk (Char.ofNat 55) (Char.ofNat 38), Key.mk (Char.ofNat 56) (Char.ofNat 42), Edge.mk Direction.Next Direction.Same),
    (Key.mk (Char.ofNat 55) (Char.ofNat 38), Key.mk (Char.ofNat 103) (Char.ofNat 71), Edge.mk Direction.Same Direction.Next),
    (Key.mk (Char.ofNat 55) (Char.ofNat 38), Key.mk (Char.ofNat 102) (Char.ofNat 70), Edge.mk Direction.Previous Direction.Next),
    (Key.mk (Char.ofNat 56) (Char.ofNat 42), Key.mk (Char.ofNat 55) (Char.ofNat 38), Edge.mk Direction.Previous Direction.Same),
    (Key.mk (Char.ofNat 56) (Char.ofNat 42), Key.mk (Char.ofNat 57) (Char.ofNat 40), Edge.mk Direction.Next Direction.Same),
    (Key.mk (Char.ofNat 56) (Char.ofNat 42), Key.mk (Char.ofNat 99) (Char.ofNat 67), Edge.mk Direction.Same Direction.Next),
    (Key.mk (Char.ofNat 56) (Char.ofNat 42), Key.mk (Char.ofNat 103) (Char.ofNat 71), Edge.mk Direction.Previous Direction.Next),
    (Key.mk (Char.ofNat 57) (Char.ofNat 40), Key.mk (Char.ofNat 56) (Char.ofNat 42), Edge.mk Direction.Previous Direction.Same),
    (Key.mk (Char.ofNat 57) (Char.ofNat 40), Key.mk (Char.ofNat 48) (Char.ofNat 41), Edge.mk Direction.Next Direction.Same),
    (Key.mk (Char.ofNat 57) (Char.ofNat 40), Key.mk (Char.ofNat 114) (Char.ofNat 82), Edge.mk Direction.Same Direction.Next),
    (Key.mk (Char.ofNat 57) (Char.ofNat 40), Key.mk (Char.ofNat 99) (Char.ofNat 67), Edge.mk Direction.Previous Direction.Next),
    (Key.mk (Char.ofNat 48) (Char.ofNat 41), Key.mk (Char.ofNat 57) (Char.ofNat 40), Edge.mk Direction.Previous Direction.Same),
    (Key.mk (Char.ofNat 48) (Char.ofNat 41), Key.mk (Char.ofNat 91) (Char.ofNat 123), Edge.mk Direction.Next Direction.Same),
    (Key.mk (Char.ofNat 48) (Char.ofNat 41), Key.mk (Char.ofNat 108) (Char.ofNat 76), Edge.mk Direction.Same Direction.Next),
    (Key.mk (Char.ofNat 48) (Char.ofNat 41), Key.mk (Char.ofNat 114) (Char.ofNat 82), Edge.mk Direction.Previous Direction.Next),
    (Key.mk (Char.ofNat 91) (Char.ofNat 123), Key.mk (Char.ofNat 48) (Char.ofNat 41), Edge.mk Direction.Previous Direction.Same),
    (Key.mk (Char.ofNat 91) (Char.ofNat 123), Key.mk (Char.ofNat 93) (Char.ofNat 125), Edge.mk Direction.Next Direction.Same),
    (Key.mk (Char.ofNat 91) (Char.ofNat 123), Key.mk (Char.ofNat 47) (Char.ofNat 63), Edge.mk Direction.Same Direction.Next),
    (Key.mk (Char.ofNat 91) (Char.ofNat 123), Key.mk (Char.ofNat 108) (Char.ofNat 76), Edge.mk Direction.Previous Direction.Next),
    (Key.mk (Char.ofNat 93) (Char.ofNat 125), Key.mk (Char.ofNat 91) (Char.ofNat 123), Edge.mk Direction.Previous Direction.Same),
    (Key.mk (Char.ofNat 93) (Char.ofNat 125), Key.mk (Char.ofNat 61) (Char.ofNat 43), Edge.mk Direction.Same Direction.Next),
    (Key.mk (Char.ofNat 93) (Char.ofNat 125), Key.mk (Char.ofNat 47) (Char.ofNat 63), Edge.mk Direction.Previous Direction.Next),
    (Key.mk (Char.ofNat 39) (Char.ofNat 34), Key.mk (Char.ofNat 49) (Char.ofNat 33), Edge.mk Direction.Same Direction.Previous),
    (Key.mk (Char.ofNat 39) (Char.ofNat 34), Key.mk (Char.ofNat 50) (Char.ofNat 64), Edge.mk Direction.Next Direction.Previous),
    (Key.mk (Char.ofNat 39) (Char.ofNat 34), Key.mk (Char.ofNat 44) (Char.ofNat 60), Edge.mk Direction.Next Direction.Same),
    (Key.mk (Char.ofNat 39) (Char.ofNat 34), Key.mk (Char.ofNat 97) (Char.ofNat 65), Edge.mk Direction.Same Direction.Next),
    (Key.mk (Char.ofNat 44) (Char.ofNat 60), Key.mk (Char.ofNat 39) (Char.ofNat 34), Edge.mk Direction.Previous Direction.Same),
    (Key.mk (Char.ofNat 44) (Char.ofNat 60), Key.mk (Char.ofNat 50) (Char.ofNat 64), Edge.mk Direction.Same Direction.Previous),
    (Key.mk (Char.ofNat 44) (Char.ofNat 60), Key.mk (Char.ofNat 51) (Char.ofNat 35), Edge.mk Direction.Next Direction.Previous),
    (Key.mk (Char.ofNat 44) (Char.ofNat 60), Key.mk (Char.ofNat 46) (Char.ofNat 62), Edge.mk Direction.Next Direction.Same),
    (Key.mk (Char.ofNat 44) (Char.ofNat 60), Key.mk (Char.ofNat 111) (Char.ofNat 79), Edge.mk Direction.Same Direction.Next),
    (Key.mk (Char.ofNat 44) (Char.ofNat 60), Key.mk (Char.ofNat 97) (Char.ofNat 65), Edge.mk Direction.Previous Direction.Next),
    (Key.mk (Char.ofNat 46) (Char.ofNat 62), Key.mk (Char.ofNat 44) (Char.ofNat 60), Edge.mk Direction.Previous Direction.Same),
    (Key.mk (Char.ofNat 46) (Char.ofNat 62), Key.mk (Char.ofNat 51) (Char.ofNat 35), Edge.mk Direction.Same Direction.Previous),
    (Key.mk (Char.ofNat 46) (Char.ofNat 62), Key.mk (Char.ofNat 52) (Char.ofNat 36), Edge.mk Direction.Next Direction.Previous),
    (Key.mk (Char.ofNat 46) (Char.ofNat 62), Key.mk (Char.ofNat 112) (Char.ofNat 80), Edge.mk Direction.Next Direction.Same),
    (Key.mk (Char.ofNat 46) (Char.ofNat 62), Key.mk (Char.ofNat 101) (Char.ofNat 69), Edge.mk Direction.Same Direction.Next),
    (Key.mk (Char.ofNat 46) (Char.ofNat 62), Key.mk (Char.ofNat 111) (Char.ofNat 79), Edge.mk Direction.Previous Direction.Next),
    (Key.mk (Char.ofNat 112) (Char.ofNat 80), Key.mk (Char.ofNat 46) (Char.ofNat 62), Edge.mk Direction.Previous Direction.Same),
    (Key.mk (Char.ofNat 112) (Char.ofNat 80), Key.mk (Char.ofNat 52) (Char.ofNat 36), Edge.mk Direction.Same Direction.Previous),
    (Key.mk (Char.ofNat 112) (Char.ofNat 80), Key.mk (Char.ofNat 53) (Char.ofNat 37), Edge.mk Direction.Next Direction.Previous),
    (Key.mk (Char.ofNat 112) (Char.ofNat 80), Key.mk (Char.ofNat 121) (Char.ofNat 89), Edge.mk Direction.Next Direction.Same),
    (Key.mk (Char.ofNat 112) (Char.ofNat 80), Key.mk (Char.ofNat 117) (Char.ofNat 85), Edge.mk Direction.Same Direction.Next),
    (Key.mk (Char.ofNat 112) (Char.ofNat 80), Key.mk (Char.ofNat 101) (Char.ofNat 69), Edge.mk Direction.Previous Direction.Next),
    (Key.mk (Char.ofNat 121) (Char.ofNat 89), Key.mk (Char.ofNat 112) (Char.ofNat 80), Edge.mk Direction.Previous Direction.Same),
    (Key.mk (Char.ofNat 121) (Char.ofNat 89), Key.mk (Char.ofNat 53) (Char.ofNat 37), Edge.mk Direction.Same Direction.Previous),
    (Key.mk (Char.ofNat 121) (Char.ofNat 89), Key.mk (Char.ofNat 54) (Char.ofNat 94), Edge.mk Direction.Next Direction.Previous),
    (Key.mk (Char.ofNat 121) (Char.ofNat 89), Key.mk (Char.ofNat 102) (Char.ofNat 70), Edge.mk Direction.Next Direction.Same),
    (Key.mk (Char.ofNat 121) (Char.ofNat 89), Key.mk (Char.ofNat 105) (Char.ofNat 73), Edge.mk Direction.Same Direction.Next),
    (Key.mk (Char.ofNat 121) (Char.ofNat 89), Key.mk (Char.ofNat 117) (Char.ofNat 85), Edge.mk Direction.Previous Direction.Next),
    (Key.mk (Char.ofNat 102) (Char.ofNat 70), Key.mk (Char.ofNat 121) (Char.ofNat 89), Edge.mk Direction.Previous Direction.Same),
    (Key.mk (Char.ofNat 102) (Char.ofNat 70), Key.mk (Char.ofNat 54) (Char.ofNat 94), Edge.mk Direction.Same Direction.Previous),
    (Key.mk (Char.ofNat 102) (Char.ofNat 70), Key.mk (Char.ofNat 55) (Char.ofNat 38), Edge.mk Direction.Next Direction.Previous),
    (Key.mk (Char.ofNat 102) (Char.ofNat 70), Key.mk (Char.ofNat 103) (Char.ofNat 71), Edge.mk Direction.Next Direction.Same),
    (Key.mk (Char.ofNat 102) (Char.ofNat 70), Key.mk (Char.ofNat 100) (Char.ofNat 68), Edge.mk Direction.Same Direction.Next),
    (Key.mk (Char.ofNat 102) (Char.ofNat 70), Key.mk (Char.ofNat 105) (Char.ofNat 73), Edge.mk Direction.Previous Direction.Next),
    (Key.mk (Char.ofNat 103) (Char.ofNat 71), Key.mk (Char.ofNat 102) (Char.ofNat 70), Edge.mk Direction.Previous Direction.Same),
    (Key.mk (Char.ofNat 103) (Char.ofNat 71), Key.mk (Char.ofNat 55) (Char.ofNat 38), Edge.mk Direction.Same Direction.Previous),
    (Key.mk (Char.ofNat 103) (Char.ofNat 71), Key.mk (Char.ofNat 56) (Char.ofNat 42), Edge.mk Direction.Next Direction.Previous),
    (Key.mk (Char.ofNat 103) (Char.ofNat 71), Key.mk (Char.ofNat 99) (Char.ofNat 67), Edge.mk Direction.Next Direction.Same),
    (Key.mk (Char.ofNat 103) (Char.ofNat 71), Key.mk (Char.ofNat 104) (Char.ofNat 72), Edge.mk Direction.Same Direction.Next),
    (Key.mk (Char.ofNat 103) (Char.ofNat 71), Key.mk (Char.ofNat 100) (Char.ofNat 68), Edge.mk Direction.Previous Direction.Next),
    (Key.mk (Char.ofNat 99) (Char.ofNat 67), Key.mk (Char.ofNat 103) (Char.ofNat 71), Edge.mk Direction.Previous Direction.Same),
    (Key.mk (Char.ofNat 99) (Char.ofNat 67), Key.mk (Char.ofNat 56) (Char.ofNat 42), Edge.mk Direction.Same Direction.Previous),
    (Key.mk (Char.ofNat 99) (Char.ofNat 67), Key.mk (Char.ofNat 57) (Char.ofNat 40), Edge.mk Direction.Next Direction.Previous),
    (Key.mk (Char.ofNat 99) (Char.ofNat 67), Key.mk (Char.ofNat 114) (Char.ofNat 82), Edge.mk Direction.Next Direction.Same),
    (Key.mk (Char.ofNat 99) (Char.ofNat 67), Key.mk (Char.ofNat 116) (Char.ofNat 84), Edge.mk Direction.Same Direction.Next),
    (Key.mk (Char.ofNat 99) (Char.ofNat 67), Key.mk (Char.ofNat 104) (Char.ofNat 72), Edge.mk Direction.Previous Direction.Next),
    (Key.mk (Char.ofNat 114) (Char.ofNat 82), Key.mk (Char.ofNat 99) (Char.ofNat 67), Edge.mk Direction.Previous Direction.Same),
    (Key.mk (Char.ofNat 114) (Char.ofNat 82), Key.mk (Char.ofNat 57) (Char.ofNat 40), Edge.mk Direction.Same Direction.Previous),
    (Key.mk (Char.ofNat 114) (Char.ofNat 82), Key.mk (Char.ofNat 48) (Char.ofNat 41), Edge.mk Direction.Next Direction.Previous),
    (Key.mk (Char.ofNat 114) (Char.ofNat 82), Key.mk (Char.ofNat 108) (Char.ofNat 76), Edge.mk Direction.Next Direction.Same),
    (Key.mk (Char.ofNat 114) (Char.ofNat 82), Key.mk (Char.ofNat 110) (Char.ofNat 78), Edge.mk Direction.Same Direction.Next),
    (Key.mk (Char.ofNat 114) (Char.ofNat 82), Key.mk (Char.ofNat 116) (Char.ofNat 84), Edge.mk Direction.Previous Direction.Next),
    (Key.mk (Char.ofNat 108) (Char.ofNat 76), Key.mk (Char.ofNat 114) (Char.ofNat 82), Edge.mk Direction.Previous Direction.Same),
    (Key.mk (Char.ofNat 108) (Char.ofNat 76), Key.mk (Char.ofNat 48) (Char.ofNat 41), Edge.mk Direction.Same Direction.Previous),
    (Key.mk (Char.ofNat 108) (Char.ofNat 76), Key.mk (Char.ofNat 91) (Char.ofNat 123), Edge.mk Direction.Next Direction.Previous),
    (Key.mk (Char.ofNat 108) (Char.ofNat 76), Key.mk (Char.ofNat 47) (Char.ofNat 63), Edge.mk Direction.Next Direction.Same),
    (Key.mk (Char.ofNat 108) (Char.ofNat 76), Key.mk (Char.ofNat 115) (Char.ofNat 83), Edge.mk Direction.Same Direction.Next),
    (Key.mk (Char.ofNat 108) (Char.ofNat 76), Key.mk (Char.ofNat 110) (Char.ofNat 78), Edge.mk Direction.Previous Direction.Next),
    (Key.mk (Char.ofNat 47) (Char.ofNat 63), Key.mk (Char.ofNat 108) (Char.ofNat 76), Edge.mk Direction.Previous Direction.Same),
    (Key.mk (Char.ofNat 47) (Char.ofNat 63), Key.mk (Char.ofNat 91) (Char.ofNat 123), Edge.mk Direction.Same Direction.Previous),
    (Key.mk (Char.ofNat 47) (Char.ofNat 63), Key.mk (Char.ofNat 93) (Char.ofNat 125), Edge.mk Direction.Next Direction.Previous),
    (Key.mk (Char.ofNat 47) (Char.ofNat 63), Key.mk (Char.ofNat 61) (Char.ofNat 43), Edge.mk Direction.Next Direction.Same),
    (Key.mk (Char.ofNat 47) (Char.ofNat 63), Key.mk (Char.ofNat 45) (Char.ofNat 95), Edge.mk Direction.Same Direction.Next),
    (Key.mk (Char.ofNat 47) (Char.ofNat 63), Key.mk (Char.ofNat 115) (Char.ofNat 83), Edge.mk Direction.Previous Direction.Next),
    (Key.mk (Char.ofNat 61) (Char.ofNat 43), Key.mk (Char.ofNat 47) (Char.ofNat 63), Edge.mk Direction.Previous Direction.Same),
    (Key.mk (Char.ofNat 61) (Char.ofNat 43), Key.mk (Char.ofNat 93) (Char.ofNat 125), Edge.mk Direction.Same Direction.Previous),
    (Key.mk (Char.ofNat 61) (Char.ofNat 43), Key.mk (Char.ofNat 92) (Char.ofNat 124), Edge.mk Direction.Next Direction.Same),
    (Key.mk (Char.ofNat 61) (Char.ofNat 43), Key.mk (Char.ofNat 45) (Char.ofNat 95), Edge.mk Direction.Previous Direction.Next),
    (Key.mk (Char.ofNat 92) (Char.ofNat 124), Key.mk (Char.ofNat 61) (Char.ofNat 43), Edge.mk Direction.Previous Direction.Same),
    (Key.mk (Char.ofNat 97) (Char.ofNat 65), Key.mk (Char.ofNat 39) (Char.ofNat 34), Edge.mk Direction.Same Direction.Previous),
    (Key.mk (Char.ofNat 97) (Char.ofNat 65), Key.mk (Char.ofNat 44) (Char.ofNat 60), Edge.mk Direction.Next Direction.Previous),
    (Key.mk (Char.ofNat 97) (Char.ofNat 65), Key.mk (Char.ofNat 111) (Char.ofNat 79), Edge.mk Direction.Next Direction.Same),
    (Key.mk (Char.ofNat 97) (Char.ofNat 65), Key.mk (Char.ofNat 59) (Char.ofNat 58), Edge.mk Direction.Same Direction.Next),
    (Key.mk (Char.ofNat 111) (Char.ofNat 79), Key.mk (Char.ofNat 97) (Char.ofNat 65), Edge.mk Direction.Previous Direction.Same),
    (Key.mk (Char.ofNat 111) (Char.ofNat 79), Key.mk (Char.ofNat 44) (Char.ofNat 60), Edge.mk Direction.Same Direction.Previous),
    (Key.mk (Char.ofNat 111) (Char.ofNat 79), Key.mk (Char.ofNat 46) (Char.ofNat 62), Edge.mk Direction.Next Direction.Previous),
    (Key.mk (Char.ofNat 111) (Char.ofNat 79), Key.mk (Char.ofNat 101) (Char.ofNat 69), Edge.mk Direction.Next Direction.Same),
    (Key.mk (Char.ofNat 111) (Char.ofNat 79), Key.mk (Char.ofNat 113) (Char.ofNat 81), Edge.mk Direction.Same Direction.Next),
    (Key.mk (Char.ofNat 111) (Char.ofNat 79), Key.mk (Char.ofNat 59) (Char.ofNat 58), Edge.mk Direction.Previous Direction.Next),
    (Key.mk (Char.ofNat 101) (Char.ofNat 69), Key.mk (Char.ofNat 111) (Char.ofNat 79), Edge.mk Direction.Previous Direction.Same),
    (Key.mk (Char.ofNat 101) (Char.ofNat 69), Key.mk (Char.ofNat 46) (Char.ofNat 62), Edge.mk Direction.Same Direction.Previous),
    (Key.mk (Char.ofNat 101) (Char.ofNat 69), Key.mk (Char.ofNat 112) (Char.ofNat 80), Edge.mk Direction.Next Direction.Previous),
    (Key.mk (Char.ofNat 101) (Char.ofNat 69), Key.mk (Char.ofNat 117) (Char.ofNat 85), Edge.mk Direction.Next Direction.Same),
    (Key.mk (Char.ofNat 101) (Char.ofNat 69), Key.mk (Char.ofNat 106) (Char.ofNat 74), Edge.mk Direction.Same Direction.Next),
    (Key.mk (Char.ofNat 101) (Char.ofNat 69), Key.mk (Char.ofNat 113) (Char.ofNat 81), Edge.mk Direction.Previous Direction.Next),
    (Key.mk (Char.ofNat 117) (Char.ofNat 85), Key.mk (Char.ofNat 101) (Char.ofNat 69), Edge.mk Direction.Previous Direction.Same),
    (Key.mk (Char.ofNat 117) (Char.ofNat 85), Key.mk (Char.ofNat 112) (Char.ofNat 80), Edge.mk Direction.Same Direction.Previous),
    (Key.mk (Char.ofNat 117) (Char.ofNat 85), Key.mk (Char.ofNat 121) (Char.ofNat 89), Edge.mk Direction.Next Direction.Previous),
    (Key.mk (Char.ofNat 117) (Char.ofNat 85), Key.mk (Char.ofNat 105) (Char.ofNat 73), Edge.mk Direction.Next Direction.Same),
    (Key.mk (Char.ofNat 117) (Char.ofNat 85), Key.mk (Char.ofNat 107) (Char.ofNat 75), Edge.mk Direction.Same Direction.Next),
    (Key.mk (Char.ofNat 117) (Char.ofNat 85), Key.mk (Char.ofNat 106) (Char.ofNat 74), Edge.mk Direction.Previous Direction.Next),
    (Key.mk (Char.ofNat 105) (Char.ofNat 73), Key.mk (Char.ofNat 117) (Char.ofNat 85), Edge.mk Direction.Previous Direction.Same),
    (Key.mk (Char.ofNat 105) (Char.ofNat 73), Key.mk (Char.ofNat 121) (Char.ofNat 89), Edge.mk Direction.Same Direction.Previous),
    (Key.mk (Char.ofNat 105) (Char.ofNat 73), Key.mk (Char.ofNat 102) (Char.ofNat 70), Edge.mk Direction.Next Direction.Previous),
    (Key.mk (Char.ofNat 105) (Char.ofNat 73), Key.mk (Char.ofNat 100) (Char.ofNat 68), Edge.mk Direction.Next Direction.Same),
    (Key.mk (Char.ofNat 105) (Char.ofNat 73), Key.mk (Char.ofNat 120) (Char.ofNat 88), Edge.mk Direction.Same Direction.Next),
    (Key.mk (Char.ofNat 105) (Char.ofNat 73), Key.mk (Char.ofNat 107) (Char.ofNat 75), Edge.mk Direction.Previous Direction.Next),
    (Key.mk (Char.ofNat 100) (Char.ofNat 68), Key.mk (Char.ofNat 105) (Char.ofNat 73), Edge.mk Direction.Previous Direction.Same),
    (Key.mk (Char.ofNat 100) (Char.ofNat 68), Key.mk (Char.ofNat 102) (Char.ofNat 70), Edge.mk Direction.Same Direction.Previous),
    (Key.mk (Char.ofNat 100) (Char.ofNat 68), Key.mk (Char.ofNat 103) (Char.ofNat 71), Edge.mk Direction.Next Direction.Previous),
    (Key.mk (Char.ofNat 100) (Char.ofNat 68), Key.mk (Char.ofNat 104) (Char.ofNat 72), Edge.mk Direction.Next Direction.Same),
    (Key.mk (Char.ofNat 100) (Char.ofNat 68), Key.mk (Char.ofNat 98) (Char.ofNat 66), Edge.mk Direction.Same Direction.Next),
    (Key.mk (Char.ofNat 100) (Char.ofNat 68), Key.mk (Char.ofNat 120) (Char.ofNat 88), Edge.mk Direction.Previous Direction.Next),
    (Key.mk (Char.ofNat 104) (Char.ofNat 72), Key.mk (Char.ofNat 100) (Char.ofNat 68), Edge.mk Direction.Previous Direction.Same),
    (Key.mk (Char.ofNat 104) (Char.ofNat 72), Key.mk (Char.ofNat 103) (Char.ofNat 71), Edge.mk Direction.Same Direction.Previous),
    (Key.mk (Char.ofNat 104) (Char.ofNat 72), Key.mk (Char.ofNat 99) (Char.ofNat 67), Edge.mk Direction.Next Direction.Previous),
    (Key.mk (Char.ofNat 104) (Char.ofNat 72), Key.mk (Char.ofNat 116) (Char.ofNat 84), Edge.mk Direction.Next Direction.Same),
    (Key.mk (Char.ofNat 104) (Char.ofNat 72), Key.mk (Char.ofNat 109) (Char.ofNat 77), Edge.mk Direction.Same Direction.Next),
    (Key.mk (Char.ofNat 104) (Char.ofNat 72), Key.mk (Char.ofNat 98) (Char.ofNat 66), Edge.mk Direction.Previous Direction.Next),
    (Key.mk (Char.ofNat 116) (Char.ofNat 84), Key.mk (Char.ofNat 104) (Char.ofNat 72), Edge.mk Direction.Previous Direction.Same),
    (Key.mk (Char.ofNat 116) (Char.ofNat 84), Key.mk (Char.ofNat 99) (Char.ofNat 67), Edge.mk Direction.Same Direction.Previous),
    (Key.mk (Char.ofNat 116) (Char.ofNat 84), Key.mk (Char.ofNat 114) (Char.ofNat 82), Edge.mk Direction.Next Direction.Previous),
    (Key.mk (Char.ofNat 116) (Char.ofNat 84), Key.mk (Char.ofNat 110) (Char.ofNat 78), Edge.mk Direction.Next Direction.Same),
    (Key.mk (Char.ofNat 116) (Char.ofNat 84), Key.mk (Char.ofNat 119) (Char.ofNat 87), Edge.mk Direction.Same Direction.Next),
    (Key.mk (Char.ofNat 116) (Char.ofNat 84), Key.mk (Char.ofNat 109) (Char.ofNat 77), Edge.mk Direction.Previous Direction.Next),
    (Key.mk (Char.ofNat 110) (Char.ofNat 78), Key.mk (Char.ofNat 116) (Char.ofNat 84), Edge.mk Direction.Previous Direction.Same),
    (Key.mk (Char.ofNat 110) (Char.ofNat 78), Key.mk (Char.ofNat 114) (Char.ofNat 82), Edge.mk Direction.Same Direction.Previous),
    (Key.mk (Char.ofNat 110) (Char.ofNat 78), Key.mk (Char.ofNat 108) (Char.ofNat 76), Edge.mk Direction.Next Direction.Previous),
    (Key.mk (Char.ofNat 110) (Char.ofNat 78), Key.mk (Char.ofNat 115) (Char.ofNat 83), Edge.mk Direction.Next Direction.Same),
    (Key.mk (Char.ofNat 110) (Char.ofNat 78), Key.mk (Char.ofNat 118) (Char.ofNat 86), Edge.mk Direction.Same Direction.Next),
    (Key.mk (Char.ofNat 110) (Char.ofNat 78), Key.mk (Char.ofNat 119) (Char.ofNat 87), Edge.mk Direction.Previous Direction.Next),
    (Key.mk (Char.ofNat 115) (Char.ofNat 83), Key.mk (Char.ofNat 110) (Char.ofNat 78), Edge.mk Direction.Previous Direction.Same),
    (Key.mk (Char.ofNat 115) (Char.ofNat 83), Key.mk (Char.ofNat 108) (Char.ofNat 76), Edge.mk Direction.Same Direction.Previous),
    (Key.mk (Char.ofNat 115) (Char.ofNat 83), Key.mk (Char.ofNat 47) (Char.ofNat 63), Edge.mk Direction.Next Direction.Previous),
    (Key.mk (Char.ofNat 115) (Char.ofNat 83), Key.mk (Char.ofNat 45) (Char.ofNat 95), Edge.mk Direction.Next Direction.Same),
    (Key.mk (Char.ofNat 115) (Char.ofNat 83), Key.mk (Char.ofNat 122) (Char.ofNat 90), Edge.mk Direction.Same Direction.Next),
    (Key.mk (Char.ofNat 115) (Char.ofNat 83), Key.mk (Char.ofNat 118) (Char.ofNat 86), Edge.mk Direction.Previous Direction.Next),
    (Key.mk (Char.ofNat 45) (Char.ofNat 95), Key.mk (Char.ofNat 115) (Char.ofNat 83), Edge.mk Direction.Previous Direction.Same),
    (Key.mk (Char.ofNat 45) (Char.ofNat 95), Key.mk (Char.ofNat 47) (Char.ofNat 63), Edge.mk Direction.Same Direction.Previous),
    (Key.mk (Char.ofNat 45) (Char.ofNat 95), Key.mk (Char.ofNat 61) (Char.ofNat 43), Edge.mk Direction.Next Direction.Previous),
    (Key.mk (Char.ofNat 45) (Char.ofNat 95), Key.mk (Char.ofNat 122) (Char.ofNat 90), Edge.mk Direction.Previous Direction.Next),
    (Key.mk (Char.ofNat 59) (Char.ofNat 58), Key.mk (Char.ofNat 97) (Char.ofNat 65), Edge.mk Direction.Same Direction.Previous),
    (Key.mk (Char.ofNat 59) (Char.ofNat 58), Key.mk (Char.ofNat 111) (Char.ofNat 79), Edge.mk Direction.Next Direction.Previous),
    (Key.mk (Char.ofNat 59) (Char.ofNat 58), Key.mk (Char.ofNat 113) (Char.ofNat 81), Edge.mk Direction.Next Direction.Same),
    (Key.mk (Char.ofNat 113) (Char.ofNat 81), Key.mk (Char.ofNat 59) (Char.ofNat 58), Edge.mk Direction.Previous Direction.Same),
    (Key.mk (Char.ofNat 113) (Char.ofNat 81), Key.mk (Char.ofNat 111) (Char.ofNat 79), Edge.mk Direction.Same Direction.Previous),
    (Key.mk (Char.ofNat 113) (Char.ofNat 81), Key.mk (Char.ofNat 101) (Char.ofNat 69), Edge.mk Direction.Next Direction.Previous),
    (Key.mk (Char.ofNat 113) (Char.ofNat 81), Key.mk (Char.ofNat 106) (Char.ofNat 74), Edge.mk Direction.Next Direction.Same),
    (Key.mk (Char.ofNat 106) (Char.ofNat 74), Key.mk (Char.ofNat 113) (Char.ofNat 81), Edge.mk Direction.Previous Direction.Same),
    (Key.mk (Char.ofNat 106) (Char.ofNat 74), Key.mk (Char.ofNat 101) (Char.ofNat 69), Edge.mk Direction.Same Direction.Previous),
    (Key.mk (Char.ofNat 106) (Char.ofNat 74), Key.mk (Char.ofNat 117) (Char.ofNat 85), Edge.mk Direction.Next Direction.Previous),
    (Key.mk (Char.ofNat 106) (Char.ofNat 74), Key.mk (Char.ofNat 107) (Char.ofNat 75), Edge.mk Direction.Next Direction.Same),
    (Key.mk (Char.ofNat 107) (Char.ofNat 75), Key.mk (Char.ofNat 106) (Char.ofNat 74), Edge.mk Direction.Previous Direction.Same),
    (Key.mk (Char.ofNat 107) (Char.ofNat 75), Key.mk (Char.ofNat 117) (Char.ofNat 85), Edge.mk Direction.Same Direction.Previous),
    (Key.mk (Char.ofNat 107) (Char.ofNat 75), Key.mk (Char.ofNat 105) (Char.ofNat 73), Edge.mk Direction.Next Direction.Previous),
    (Key.mk (Char.ofNat 107) (Char.ofNat 75), Key.mk (Char.ofNat 120) (Char.ofNat 88), Edge.mk Direction.Next Direction.Same),
    (Key.mk (Char.ofNat 120) (Char.ofNat 88), Key.mk (Char.ofNat 107) (Char.ofNat 75), Edge.mk Direction.Previous Direction.Same),
    (Key.mk (Char.ofNat 120) (Char.ofNat 88), Key.mk (Char.ofNat 105) (Char.ofNat 73), Edge.mk Direction.Same Direction.Previous),
    (Key.mk (Char.ofNat 120) (Char.ofNat 88), Key.mk (Char.ofNat 100) (Char.ofNat 68), Edge.mk Direction.Next Direction.Previous),
    (Key.mk (Char.ofNat 120) (Char.ofNat 88), Key.mk (Char.ofNat 98) (Char.ofNat 66), Edge.mk Direction.Next Direction.Same),
    (Key.mk (Char.ofNat 98) (Char.ofNat 66), Key.mk (Char.ofNat 120) (Char.ofNat 88), Edge.mk Direction.Previous Direction.Same),
    (Key.mk (Char.ofNat 98) (Char.ofNat 66), Key.mk (Char.ofNat 100) (Char.ofNat 68), Edge.mk Direction.Same Direction.Previous),
    (Key.mk (Char.ofNat 98) (Char.ofNat 66), Key.mk (Char.ofNat 104) (Char.ofNat 72), Edge.mk Direction.Next Direction.Previous),
    (Key.mk (Char.ofNat 98) (Char.ofNat 66), Key.mk (Char.ofNat 109) (Char.ofNat 77), Edge.mk Direction.Next Direction.Same),
    (Key.mk (Char.ofNat 109) (Char.ofNat 77), Key.mk (Char.ofNat 98) (Char.ofNat 66), Edge.mk Direction.Previous Direction.Same),
    (Key.mk (Char.ofNat 109) (Char.ofNat 77), Key.mk (Char.ofNat 104) (Char.ofNat 72), Edge.mk Direction.Same Direction.Previous),
    (Key.mk (Char.ofNat 109) (Char.ofNat 77), Key.mk (Char.ofNat 116) (Char.ofNat 84), Edge.mk Direction.Next Direction.Previous),
    (Key.mk (Char.ofNat 109) (Char.ofNat 77), Key.mk (Char.ofNat 119) (Char.ofNat 87), Edge.mk Direction.Next Direction.Same),
    (Key.mk (Char.ofNat 119) (Char.ofNat 87), Key.mk (Char.ofNat 109) (Char.ofNat 77), Edge.mk Direction.Previous Direction.Same),
    (Key.mk (Char.ofNat 119) (Char.ofNat 87), Key.mk (Char.ofNat 116) (Char.ofNat 84), Edge.mk Direction.Same Direction.Previous),
    (Key.mk (Char.ofNat 119) (Char.ofNat 87), Key.mk (Char.ofNat 110) (Char.ofNat 78), Edge.mk Direction.Next Direction.Previous),
    (Key.mk (Char.ofNat 119) (Char.ofNat 87), Key.mk (Char.ofNat 118) (Char.ofNat 86), Edge.mk Direction.Next Direction.Same),
    (Key.mk (Char.ofNat 118) (Char.ofNat 86), Key.mk (Char.ofNat 119) (Char.ofNat 87), Edge.mk Direction.Previous Direction.Same),
    (Key.mk (Char.ofNat 118) (Char.ofNat 86), Key.mk (Char.ofNat 110) (Char.ofNat 78), Edge.mk Direction.Same Direction.Previous),
    (Key.mk (Char.ofNat 118) (Char.ofNat 86), Key.mk (Char.ofNat 115) (Char.ofNat 83), Edge.mk Direction.Next Direction.Previous),
    (Key.mk (Char.ofNat 118) (Char.ofNat 86), Key.mk (Char.ofNat 122) (Char.ofNat 90), Edge.mk Direction.Next Direction.Same),
    (Key.mk (Char.ofNat 122) (Char.ofNat 90), Key.mk (Char.ofNat 118) (Char.ofNat 86), Edge.mk Direction.Previous Direction.Same),
    (Key.mk (Char.ofNat 122) (Char.ofNat 90), Key.mk (Char.ofNat 115) (Char.ofNat 83), Edge.mk Direction.Same Direction.Previous),
    (Key.mk (Char.ofNat 122) (Char.ofNat 90), Key.mk (Char.ofNat 45) (Char.ofNat 95), Edge.mk Direction.Next Direction.Previous) ]

/-- Machine-checked explicit form of `STANDARD_NUMPAD`. -/
def STANDARD_NUMPAD_lit : Graph :=
  Graph.mk
  [ Key.mk (Char.ofNat 48) (Char.ofNat 0),
    Key.mk (Char.ofNat 49) (Char.ofNat 0),
    Key.mk (Char.ofNat 50) (Char.ofNat 0),
    Key.mk (Char.ofNat 51) (Char.ofNat 0),
    Key.mk (Char.ofNat 52) (Char.ofNat 0),
    Key.mk (Char.ofNat 53) (Char.ofNat 0),
    Key.mk (Char.ofNat 54) (Char.ofNat 0),
    Key.mk (Char.ofNat 55) (Char.ofNat 0),
    Key.mk (Char.ofNat 56) (Char.ofNat 0),
    Key.mk (Char.ofNat 57) (Char.ofNat 0),
    Key.mk (Char.ofNat 0) (Char.ofNat 0),
    Key.mk (Char.ofNat 47) (Char.ofNat 0),
    Key.mk (Char.ofNat 42) (Char.ofNat 0),
    Key.mk (Char.ofNat 45) (Char.ofNat 0),
    Key.mk (Char.ofNat 43) (Char.ofNat 0),
    Key.mk (Char.ofNat 46) (Char.ofNat 0) ]
  [ (Key.mk (Char.ofNat 0) (Char.ofNat 0), Key.mk (Char.ofNat 47) (Char.ofNat 0), Edge.mk Direction.Next Direction.Same),
    (Key.mk (Char.ofNat 0) (Char.ofNat 0), Key.mk (Char.ofNat 56) (Char.ofNat 0), Edge.mk Direction.Next Direction.Next),
    (Key.mk (Char.ofNat 0) (Char.ofNat 0), Key.mk (Char.ofNat 55) (Char.ofNat 0), Edge.mk Direction.Same Direction.Next),
    (Key.mk (Char.ofNat 47) (Char.ofNat 0), Key.mk (Char.ofNat 0) (Char.ofNat 0), Edge.mk Direction.Previous Direction.Same),
    (Key.mk (Char.ofNat 47) (Char.ofNat 0), Key.mk (Char.ofNat 42) (Char.ofNat 0), Edge.mk Direction.Next Direction.Same),
    (Key.mk (Char.ofNat 47) (Char.ofNat 0), Key.mk (Char.ofNat 57) (Char.ofNat 0), Edge.mk Direction.Next Direction.Next),
    (Key.mk (Char.ofNat 47) (Char.ofNat 0), Key.mk (Char.ofNat 56) (Char.ofNat 0), Edge.mk Direction.Same Direction.Next),
    (Key.mk (Char.ofNat 47) (Char.ofNat 0), Key.mk (Char.ofNat 55) (Char.ofNat 0), Edge.mk Direction.Previous Direction.Next),
    (Key.mk (Char.ofNat 42) (Char.ofNat 0), Key.mk (Char.ofNat 47) (Char.ofNat 0), Edge.mk Direction.Previous Direction.Same),
    (Key.mk (Char.ofNat 42) (Char.ofNat 0), Key.mk (Char.ofNat 45) (Char.ofNat 0), Edge.mk Direction.Next Direction.Same),
    (Key.mk (Char.ofNat 42) (Char.ofNat 0), Key.mk (Char.ofNat 43) (Char.ofNat 0), Edge.mk Direction.Next Direction.Next),
    (Key.mk (Char.ofNat 42) (Char.ofNat 0), Key.mk (Char.ofNat 57) (Char.ofNat 0), Edge.mk Direction.Same Direction.Next),
    (Key.mk (Char.ofNat 42) (Char.ofNat 0), Key.mk (Char.ofNat 56) (Char.ofNat 0), Edge.mk Direction.Previous Direction.Next),
    (Key.mk (Char.ofNat 45) (Char.ofNat 0), Key.mk (Char.ofNat 42) (Char.ofNat 0), Edge.mk Direction.Previous Direction.Same),
    (Key.mk (Char.ofNat 45) (Char.ofNat 0), Key.mk (Char.ofNat 43) (Char.ofNat 0), Edge.mk Direction.Same Direction.Next),
    (Key.mk (Char.ofNat 45) (Char.ofNat 0), Key.mk (Char.ofNat 57) (Char.ofNat 0), Edge.mk Direction.Previous Direction.Next),
    (Key.mk (Char.ofNat 55) (Char.ofNat 0), Key.mk (Char.ofNat 0) (Char.ofNat 0), Edge.mk Direction.Same Direction.Previous),
    (Key.mk (Char.ofNat 55) (Char.ofNat 0), Key.mk (Char.ofNat 47) (Char.ofNat 0), Edge.mk Direction.Next Direction.Previous),
    (Key.mk (Char.ofNat 55) (Char.ofNat 0), Key.mk (Char.ofNat 56) (Char.ofNat 0), Edge.mk Direction.Next Direction.Same),
    (Key.mk (Char.ofNat 55) (Char.ofNat 0), Key.mk (Char.ofNat 53) (Char.ofNat 0), Edge.mk Direction.Next Direction.Next),
    (Key.mk (Char.ofNat 55) (Char.ofNat 0), Key.mk (Char.ofNat 52) (Char.ofNat 0), Edge.mk Direction.Same Direction.Next),
    (Key.mk (Char.ofNat 56) (Char.ofNat 0), Key.mk (Char.ofNat 55) (Char.ofNat 0), Edge.mk Direction.Previous Direction.Same),
    (Key.mk (Char.ofNat 56) (Char.ofNat 0), Key.mk (Char.ofNat 0) (Char.ofNat 0), Edge.mk Direction.Previous Direction.Previous),
    (Key.mk (Char.ofNat 56) (Char.ofNat 0), Key.mk (Char.ofNat 47) (Char.ofNat 0), Edge.mk Direction.Same Direction.Previous),
    (Key.mk (Char.ofNat 56) (Char.ofNat 0), Key.mk (Char.ofNat 42) (Char.ofNat 0), Edge.mk Direction.Next Direction.Previous),
    (Key.mk (Char.ofNat 56) (Char.ofNat 0), Key.mk (Char.ofNat 57) (Char.ofNat 0), Edge.mk Direction.Next Direction.Same),
    (Key.mk (Char.ofNat 56) (Char.ofNat 0), Key.mk (Char.ofNat 54) (Char.ofNat 0), Edge.mk Direction.Next Direction.Next),
    (Key.mk (Char.ofNat 56) (Char.ofNat 0), Key.mk (Char.ofNat 53) (Char.ofNat 0), Edge.mk Direction.Same Direction.Next),
    (Key.mk (Char.ofNat 56) (Char.ofNat 0), Key.mk (Char.ofNat 52) (Char.ofNat 0), Edge.mk Direction.Previous Direction.Next),
    (Key.mk (Char.ofNat 57) (Char.ofNat 0), Key.mk (Char.ofNat 56) (Char.ofNat 0), Edge.mk Direction.Previous Direction.Same),
    (Key.mk (Char.ofNat 57) (Char.ofNat 0), Key.mk (Char.ofNat 47) (Char.ofNat 0), Edge.mk Direction.Previous Direction.Previous),
    (Key.mk (Char.ofNat 57) (Char.ofNat 0), Key.mk (Char.ofNat 42) (Char.ofNat 0), Edge.mk Direction.Same Direction.Previous),
    (Key.mk (Char.ofNat 57) (Char.ofNat 0), Key.mk (Char.ofNat 45) (Char.ofNat 0), Edge.mk Direction.Next Direction.Previous),
    (Key.mk (Char.ofNat 57) (Char.ofNat 0), Key.mk (Char.ofNat 43) (Char.ofNat 0), Edge.mk Direction.Next Direction.Same),
    (Key.mk (Char.ofNat 57) (Char.ofNat 0), Key.mk (Char.ofNat 54) (Char.ofNat 0), Edge.mk Direction.Same Direction.Next),
    (Key.mk (Char.ofNat 57) (Char.ofNat 0), Key.mk (Char.ofNat 53) (Char.ofNat 0), Edge.mk Direction.Previous Direction.Next),
    (Key.mk (Char.ofNat 43) (Char.ofNat 0), Key.mk (Char.ofNat 57) (Char.ofNat 0), Edge.mk Direction.Previous Direction.Same),
    (Key.mk (Char.ofNat 43) (Char.ofNat 0), Key.mk (Char.ofNat 42) (Char.ofNat 0), Edge.mk Direction.Previous Direction.Previous),
    (Key.mk (Char.ofNat 43) (Char.ofNat 0), Key.mk (Char.ofNat 45) (Char.ofNat 0), Edge.mk Direction.Same Direction.Previous),
    (Key.mk (Char.ofNat 43) (Char.ofNat 0), Key.mk (Char.ofNat 54) (Char.ofNat 0), Edge.mk Direction.Previous Direction.Next),
    (Key.mk (Char.ofNat 52) (Char.ofNat 0), Key.mk (Char.ofNat 55) (Char.ofNat 0), Edge.mk Direction.Same Direction.Previous),
    (Key.mk (Char.ofNat 52) (Char.ofNat 0), Key.mk (Char.ofNat 56) (Char.ofNat 0), Edge.mk Direction.Next Direction.Previous),
    (Key.mk (Char.ofNat 52) (Char.ofNat 0), Key.mk (Char.ofNat 53) (Char.ofNat 0), Edge.mk Direction.Next Direction.Same),
    (Key.mk (Char.ofNat 52) (Char.ofNat 0), Key.mk (Char.ofNat 50) (Char.ofNat 0), Edge.mk Direction.Next Direction.Next),
    (Key.mk (Char.ofNat 52) (Char.ofNat 0), Key.mk (Char.ofNat 49) (Char.ofNat 0), Edge.mk Direction.Same Direction.Next),
    (Key.mk (Char.ofNat 53) (Char.ofNat 0), Key.mk (Char.ofNat 52) (Char.ofNat 0), Edge.mk Direction.Previous Direction.Same),
    (Key.mk (Char.ofNat 53) (Char.ofNat 0), Key.mk (Char.ofNat 55) (Char.ofNat 0), Edge.mk Direction.Previous Direction.Previous),
    (Key.mk (Char.ofNat 53) (Char.ofNat 0), Key.mk (Char.ofNat 56) (Char.ofNat 0), Edge.mk Direction.Same Direction.Previous),
    (Key.mk (Char.ofNat 53) (Char.ofNat 0), Key.mk (Char.ofNat 57) (Char.ofNat 0), Edge.mk Direction.Next Direction.Previous),
    (Key.mk (Char.ofNat 53) (Char.ofNat 0), Key.mk (Char.ofNat 54) (Char.ofNat 0), Edge.mk Direction.Next Direction.Same),
    (Key.mk (Char.ofNat 53) (Char.ofNat 0), Key.mk (Char.ofNat 51) (Char.ofNat 0), Edge.mk Direction.Next Direction.Next),
    (Key.mk (Char.ofNat 53) (Char.ofNat 0), Key.mk (Char.ofNat 50) (Char.ofNat 0), Edge.mk Direction.Same Direction.Next),
    (Key.mk (Char.ofNat 53) (Char.ofNat 0), Key.mk (Char.ofNat 49) (Char.ofNat 0), Edge.mk Direction.Previous Direction.Next),
    (Key.mk (Char.ofNat 54) (Char.ofNat 0), Key.mk (Char.ofNat 53) (Char.ofNat 0), Edge.mk Direction.Previous Direction.Same),
    (Key.mk (Char.ofNat 54) (Char.ofNat 0), Key.mk (Char.ofNat 56) (Char.ofNat 0), Edge.mk Direction.Previous Direction.Previous),
    (Key.mk (Char.ofNat 54) (Char.ofNat 0), Key.mk (Char.ofNat 57) (Char.ofNat 0), Edge.mk Direction.Same Direction.Previous),
    (Key.mk (Char.ofNat 54) (Char.ofNat 0), Key.mk (Char.ofNat 43) (Char.ofNat 0), Edge.mk Direction.Next Direction.Previous),
    (Key.mk (Char.ofNat 54) (Char.ofNat 0), Key.mk (Char.ofNat 51) (Char.ofNat 0), Edge.mk Direction.Same Direction.Next),
    (Key.mk (Char.ofNat 54) (Char.ofNat 0), Key.mk (Char.ofNat 50) (Char.ofNat 0), Edge.mk Direction.Previous Direction.Next),
    (Key.mk (Char.ofNat 49) (Char.ofNat 0), Key.mk (Char.ofNat 52) (Char.ofNat 0), Edge.mk Direction.Same Direction.Previous),
    (Key.mk (Char.ofNat 49) (Char.ofNat 0), Key.mk (Char.ofNat 53) (Char.ofNat 0), Edge.mk Direction.Next Direction.Previous),
    (Key.mk (Char.ofNat 49) (Char.ofNat 0), Key.mk (Char.ofNat 50) (Char.ofNat 0), Edge.mk Direction.Next Direction.Same),
    (Key.mk (Char.ofNat 49) (Char.ofNat 0), Key.mk (Char.ofNat 48) (Char.ofNat 0), Edge.mk Direction.Next Direction.Next),
    (Key.mk (Char.ofNat 49) (Char.ofNat 0), Key.mk (Char.ofNat 0) (Char.ofNat 0), Edge.mk Direction.Same Direction.Next),
    (Key.mk (Char.ofNat 50) (Char.ofNat 0), Key.mk (Char.ofNat 49) (Char.ofNat 0), Edge.mk Direction.Previous Direction.Same),
    (Key.mk (Char.ofNat 50) (Char.ofNat 0), Key.mk (Char.ofNat 52) (Char.ofNat 0), Edge.mk Direction.Previous Direction.Previous),
    (Key.mk (Char.ofNat 50) (Char.ofNat 0), Key.mk (Char.ofNat 53) (Char.ofNat 0), Edge.mk Direction.Same Direction.Previous),
    (Key.mk (Char.ofNat 50) (Char.ofNat 0), Key.mk (Char.ofNat 54) (Char.ofNat 0), Edge.mk Direction.Next Direction.Previous),
    (Key.mk (Char.ofNat 50) (Char.ofNat 0), Key.mk (Char.ofNat 51) (Char.ofNat 0), Edge.mk Direction.Next Direction.Same),
    (Key.mk (Char.ofNat 50) (Char.ofNat 0), Key.mk (Char.ofNat 46) (Char.ofNat 0), Edge.mk Direction.Next Direction.Next),
    (Key.mk (Char.ofNat 50) (Char.ofNat 0), Key.mk (Char.ofNat 48) (Char.ofNat 0), Edge.mk Direction.Same Direction.Next),
    (Key.mk (Char.ofNat 50) (Char.ofNat 0), Key.mk (Char.ofNat 0) (Char.ofNat 0), Edge.mk Direction.Previous Direction.Next),
    (Key.mk (Char.ofNat 51) (Char.ofNat 0), Key.mk (Char.ofNat 50) (Char.ofNat 0), Edge.mk Direction.Previous Direction.Same),
    (Key.mk (Char.ofNat 51) (Char.ofNat 0), Key.mk (Char.ofNat 53) (Char.ofNat 0), Edge.mk Direction.Previous Direction.Previous),
    (Key.mk (Char.ofNat 51) (Char.ofNat 0), Key.mk (Char.ofNat 54) (Char.ofNat 0), Edge.mk Direction.Same Direction.Previous),
    (Key.mk (Char.ofNat 51) (Char.ofNat 0), Key.mk (Char.ofNat 46) (Char.ofNat 0), Edge.mk Direction.Same Direction.Next),
    (Key.mk (Char.ofNat 51) (Char.ofNat 0), Key.mk (Char.ofNat 48) (Char.ofNat 0), Edge.mk Direction.Previous Direction.Next),
    (Key.mk (Char.ofNat 0) (Char.ofNat 0), Key.mk (Char.ofNat 49) (Char.ofNat 0), Edge.mk Direction.Same Direction.Previous),
    (Key.mk (Char.ofNat 0) (Char.ofNat 0), Key.mk (Char.ofNat 50) (Char.ofNat 0), Edge.mk Direction.Next Direction.Previous),
    (Key.mk (Char.ofNat 0) (Char.ofNat 0), Key.mk (Char.ofNat 48) (Char.ofNat 0), Edge.mk Direction.Next Direction.Same),
    (Key.mk (Char.ofNat 48) (Char.ofNat 0), Key.mk (Char.ofNat 0) (Char.ofNat 0), Edge.mk Direction.Previous Direction.Same),
    (Key.mk (Char.ofNat 48) (Char.ofNat 0), Key.mk (Char.ofNat 49) (Char.ofNat 0), Edge.mk Direction.Previous Direction.Previous),
    (Key.mk (Char.ofNat 48) (Char.ofNat 0), Key.mk (Char.ofNat 50) (Char.ofNat 0), Edge.mk Direction.Same Direction.Previous),
    (Key.mk (Char.ofNat 48) (Char.ofNat 0), Key.mk (Char.ofNat 51) (Char.ofNat 0), Edge.mk Direction.Next Direction.Previous),
    (Key.mk (Char.ofNat 48) (Char.ofNat 0), Key.mk (Char.ofNat 46) (Char.ofNat 0), Edge.mk Direction.Next Direction.Same),
    (Key.mk (Char.ofNat 46) (Char.ofNat 0), Key.mk (Char.ofNat 48) (Char.ofNat 0), Edge.mk Direction.Previous Direction.Same),
    (Key.mk (Char.ofNat 46) (Char.ofNat 0), Key.mk (Char.ofNat 50) (Char.ofNat 0), Edge.mk Direction.Previous Direction.Previous),
    (Key.mk (Char.ofNat 46) (Char.ofNat 0), Key.mk (Char.ofNat 51) (Char.ofNat 0), Edge.mk Direction.Same Direction.Previous) ]

/-- Machine-checked explicit form of `MAC_NUMPAD`. -/
def MAC_NUMPAD_lit : Graph :=
  Graph.mk
  [ Key.mk (Char.ofNat 0) (Char.ofNat 0),
    Key.mk (Char.ofNat 61) (Char.ofNat 0),
    Key.mk (Char.ofNat 56) (Char.ofNat 0),
    Key.mk (Char.ofNat 55) (Char.ofNat 0),
    Key.mk (Char.ofNat 47) (Char.ofNat 0),
    Key.mk (Char.ofNat 57) (Char.ofNat 0),
    Key.mk (Char.ofNat 42) (Char.ofNat 0),
    Key.mk (Char.ofNat 45) (Char.ofNat 0),
    Key.mk (Char.ofNat 53) (Char.ofNat 0),
    Key.mk (Char.ofNat 52) (Char.ofNat 0),
    Key.mk (Char.ofNat 54) (Char.ofNat 0),
    Key.mk (Char.ofNat 43) (Char.ofNat 0),
    Key.mk (Char.ofNat 50) (Char.ofNat 0),
    Key.mk (Char.ofNat 49) (Char.ofNat 0),
    Key.mk (Char.ofNat 51) (Char.ofNat 0),
    Key.mk (Char.ofNat 48) (Char.ofNat 0),
    Key.mk (Char.ofNat 46) (Char.ofNat 0) ]
  [ (Key.mk (Char.ofNat 0) (Char.ofNat 0), Key.mk (Char.ofNat 61) (Char.ofNat 0), Edge.mk Direction.Next Direction.Same),
    (Key.mk (Char.ofNat 0) (Char.ofNat 0), Key.mk (Char.ofNat 56) (Char.ofNat 0), Edge.mk Direction.Next Direction.Next),
    (Key.mk (Char.ofNat 0) (Char.ofNat 0), Key.mk (Char.ofNat 55) (Char.ofNat 0), Edge.mk Direction.Same Direction.Next),
    (Key.mk (Char.ofNat 61) (Char.ofNat 0), Key.mk (Char.ofNat 0) (Char.ofNat 0), Edge.mk Direction.Previous Direction.Same),
    (Key.mk (Char.ofNat 61) (Char.ofNat 0), Key.mk (Char.ofNat 47) (Char.ofNat 0), Edge.mk Direction.Next Direction.Same),
    (Key.mk (Char.ofNat 61) (Char.ofNat 0), Key.mk (Char.ofNat 57) (Char.ofNat 0), Edge.mk Direction.Next Direction.Next),
    (Key.mk (Char.ofNat 61) (Char.ofNat 0), Key.mk (Char.ofNat 56) (Char.ofNat 0), Edge.mk Direction.Same Direction.Next),
    (Key.mk (Char.ofNat 61) (Char.ofNat 0), Key.mk (Char.ofNat 55) (Char.ofNat 0), Edge.mk Direction.Previous Direction.Next),
    (Key.mk (Char.ofNat 47) (Char.ofNat 0), Key.mk (Char.ofNat 61) (Char.ofNat 0), Edge.mk Direction.Previous Direction.Same),
    (Key.mk (Char.ofNat 47) (Char.ofNat 0), Key.mk (Char.ofNat 42) (Char.ofNat 0), Edge.mk Direction.Next Direction.Same),
    (Key.mk (Char.ofNat 47) (Char.ofNat 0), Key.mk (Char.ofNat 45) (Char.ofNat 0), Edge.mk Direction.Next Direction.Next),
    (Key.mk (Char.ofNat 47) (Char.ofNat 0), Key.mk (Char.ofNat 57) (Char.ofNat 0), Edge.mk Direction.Same Direction.Next),
    (Key.mk (Char.ofNat 47) (Char.ofNat 0), Key.mk (Char.ofNat 56) (Char.ofNat 0), Edge.mk Direction.Previous Direction.Next),
    (Key.mk (Char.ofNat 42) (Char.ofNat 0), Key.mk (Char.ofNat 47) (Char.ofNat 0), Edge.mk Direction.Previous Direction.Same),
    (Key.mk (Char.ofNat 42) (Char.ofNat 0), Key.mk (Char.ofNat 45) (Char.ofNat 0), Edge.mk Direction.Same Direction.Next),
    (Key.mk (Char.ofNat 42) (Char.ofNat 0), Key.mk (Char.ofNat 57) (Char.ofNat 0), Edge.mk Direction.Previous Direction.Next),
    (Key.mk (Char.ofNat 55) (Char.ofNat 0), Key.mk (Char.ofNat 0) (Char.ofNat 0), Edge.mk Direction.Same Direction.Previous),
    (Key.mk (Char.ofNat 55) (Char.ofNat 0), Key.mk (Char.ofNat 61) (Char.ofNat 0), Edge.mk Direction.Next Direction.Previous),
    (Key.mk (Char.ofNat 55) (Char.ofNat 0), Key.mk (Char.ofNat 56) (Char.ofNat 0), Edge.mk Direction.Next Direction.Same),
    (Key.mk (Char.ofNat 55) (Char.ofNat 0), Key.mk (Char.ofNat 53) (Char.ofNat 0), Edge.mk Direction.Next Direction.Next),
    (Key.mk (Char.ofNat 55) (Char.ofNat 0), Key.mk (Char.ofNat 52) (Char.ofNat 0), Edge.mk Direction.Same Direction.Next),
    (Key.mk (Char.ofNat 56) (Char.ofNat 0), Key.mk (Char.ofNat 55) (Char.ofNat 0), Edge.mk Direction.Previous Direction.Same),
    (Key.mk (Char.ofNat 56) (Char.ofNat 0), Key.mk (Char.ofNat 0) (Char.ofNat 0), Edge.mk Direction.Previous Direction.Previous),
    (Key.mk (Char.ofNat 56) (Char.ofNat 0), Key.mk (Char.ofNat 61) (Char.ofNat 0), Edge.mk Direction.Same Direction.Previous),
    (Key.mk (Char.ofNat 56) (Char.ofNat 0), Key.mk (Char.ofNat 47) (Char.ofNat 0), Edge.mk Direction.Next Direction.Previous),
    (Key.mk (Char.ofNat 56) (Char.ofNat 0), Key.mk (Char.ofNat 57) (Char.ofNat 0), Edge.mk Direction.Next Direction.Same),
    (Key.mk (Char.ofNat 56) (Char.ofNat 0), Key.mk (Char.ofNat 54) (Char.ofNat 0), Edge.mk Direction.Next Direction.Next),
    (Key.mk (Char.ofNat 56) (Char.ofNat 0), Key.mk (Char.ofNat 53) (Char.ofNat 0), Edge.mk Direction.Same Direction.Next),
    (Key.mk (Char.ofNat 56) (Char.ofNat 0), Key.mk (Char.ofNat 52) (Char.ofNat 0), Edge.mk Direction.Previous Direction.Next),
    (Key.mk (Char.ofNat 57) (Char.ofNat 0), Key.mk (Char.ofNat 56) (Char.ofNat 0), Edge.mk Direction.Previous Direction.Same),
    (Key.mk (Char.ofNat 57) (Char.ofNat 0), Key.mk (Char.ofNat 61) (Char.ofNat 0), Edge.mk Direction.Previous Direction.Previous),
    (Key.mk (Char.ofNat 57) (Char.ofNat 0), Key.mk (Char.ofNat 47) (Char.ofNat 0), Edge.mk Direction.Same Direction.Previous),
    (Key.mk (Char.ofNat 57) (Char.ofNat 0), Key.mk (Char.ofNat 42) (Char.ofNat 0), Edge.mk Direction.Next Direction.Previous),
    (Key.mk (Char.ofNat 57) (Char.ofNat 0), Key.mk (Char.ofNat 45) (Char.ofNat 0), Edge.mk Direction.Next Direction.Same),
    (Key.mk (Char.ofNat 57) (Char.ofNat 0), Key.mk (Char.ofNat 43) (Char.ofNat 0), Edge.mk Direction.Next Direction.Next),
    (Key.mk (Char.ofNat 57) (Char.ofNat 0), Key.mk (Char.ofNat 54) (Char.ofNat 0), Edge.mk Direction.Same Direction.Next),
    (Key.mk (Char.ofNat 57) (Char.ofNat 0), Key.mk (Char.ofNat 53) (Char.ofNat 0), Edge.mk Direction.Previous Direction.Next),
    (Key.mk (Char.ofNat 45) (Char.ofNat 0), Key.mk (Char.ofNat 57) (Char.ofNat 0), Edge.mk Direction.Previous Direction.Same),
    (Key.mk (Char.ofNat 45) (Char.ofNat 0), Key.mk (Char.ofNat 47) (Char.ofNat 0), Edge.mk Direction.Previous Direction.Previous),
    (Key.mk (Char.ofNat 45) (Char.ofNat 0), Key.mk (Char.ofNat 42) (Char.ofNat 0), Edge.mk Direction.Same Direction.Previous),
    (Key.mk (Char.ofNat 45) (Char.ofNat 0), Key.mk (Char.ofNat 43) (Char.ofNat 0), Edge.mk Direction.Same Direction.Next),
    (Key.mk (Char.ofNat 45) (Char.ofNat 0), Key.mk (Char.ofNat 54) (Char.ofNat 0), Edge.mk Direction.Previous Direction.Next),
    (Key.mk (Char.ofNat 52) (Char.ofNat 0), Key.mk (Char.ofNat 55) (Char.ofNat 0), Edge.mk Direction.Same Direction.Previous),
    (Key.mk (Char.ofNat 52) (Char.ofNat 0), Key.mk (Char.ofNat 56) (Char.ofNat 0), Edge.mk Direction.Next Direction.Previous),
    (Key.mk (Char.ofNat 52) (Char.ofNat 0), Key.mk (Char.ofNat 53) (Char.ofNat 0), Edge.mk Direction.Next Direction.Same),
    (Key.mk (Char.ofNat 52) (Char.ofNat 0), Key.mk (Char.ofNat 50) (Char.ofNat 0), Edge.mk Direction.Next Direction.Next),
    (Key.mk (Char.ofNat 52) (Char.ofNat 0), Key.mk (Char.ofNat 49) (Char.ofNat 0), Edge.mk Direction.Same Direction.Next),
    (Key.mk (Char.ofNat 53) (Char.ofNat 0), Key.mk (Char.ofNat 52) (Char.ofNat 0), Edge.mk Direction.Previous Direction.Same),
    (Key.mk (Char.ofNat 53) (Char.ofNat 0), Key.mk (Char.ofNat 55) (Char.ofNat 0), Edge.mk Direction.Previous Direction.Previous),
    (Key.mk (Char.ofNat 53) (Char.ofNat 0), Key.mk (Char.ofNat 56) (Char.ofNat 0), Edge.mk Direction.Same Direction.Previous),
    (Key.mk (Char.ofNat 53) (Char.ofNat 0), Key.mk (Char.ofNat 57) (Char.ofNat 0), Edge.mk Direction.Next Direction.Previous),
    (Key.mk (Char.ofNat 53) (Char.ofNat 0), Key.mk (Char.ofNat 54) (Char.ofNat 0), Edge.mk Direction.Next Direction.Same),
    (Key.mk (Char.ofNat 53) (Char.ofNat 0), Key.mk (Char.ofNat 51) (Char.ofNat 0), Edge.mk Direction.Next Direction.Next),
    (Key.mk (Char.ofNat 53) (Char.ofNat 0), Key.mk (Char.ofNat 50) (Char.ofNat 0), Edge.mk Direction.Same Direction.Next),
    (Key.mk (Char.ofNat 53) (Char.ofNat 0), Key.mk (Char.ofNat 49) (Char.ofNat 0), Edge.mk Direction.Previous Direction.Next),
    (Key.mk (Char.ofNat 54) (Char.ofNat 0), Key.mk (Char.ofNat 53) (Char.ofNat 0), Edge.mk Direction.Previous Direction.Same),
    (Key.mk (Char.ofNat 54) (Char.ofNat 0), Key.mk (Char.ofNat 56) (Char.ofNat 0), Edge.mk Direction.Previous Direction.Previous),
    (Key.mk (Char.ofNat 54) (Char.ofNat 0), Key.mk (Char.ofNat 57) (Char.ofNat 0), Edge.mk Direction.Same Direction.Previous),
    (Key.mk (Char.ofNat 54) (Char.ofNat 0), Key.mk (Char.ofNat 45) (Char.ofNat 0), Edge.mk Direction.Next Direction.Previous),
    (Key.mk (Char.ofNat 54) (Char.ofNat 0), Key.mk (Char.ofNat 43) (Char.ofNat 0), Edge.mk Direction.Next Direction.Same),
    (Key.mk (Char.ofNat 54) (Char.ofNat 0), Key.mk (Char.ofNat 51) (Char.ofNat 0), Edge.mk Direction.Same Direction.Next),
    (Key.mk (Char.ofNat 54) (Char.ofNat 0), Key.mk (Char.ofNat 50) (Char.ofNat 0), Edge.mk Direction.Previous Direction.Next),
    (Key.mk (Char.ofNat 43) (Char.ofNat 0), Key.mk (Char.ofNat 54) (Char.ofNat 0), Edge.mk Direction.Previous Direction.Same),
    (Key.mk (Char.ofNat 43) (Char.ofNat 0), Key.mk (Char.ofNat 57) (Char.ofNat 0), Edge.mk Direction.Previous Direction.Previous),
    (Key.mk (Char.ofNat 43) (Char.ofNat 0), Key.mk (Char.ofNat 45) (Char.ofNat 0), Edge.mk Direction.Same Direction.Previous),
    (Key.mk (Char.ofNat 43) (Char.ofNat 0), Key.mk (Char.ofNat 51) (Char.ofNat 0), Edge.mk Direction.Previous Direction.Next),
    (Key.mk (Char.ofNat 49) (Char.ofNat 0), Key.mk (Char.ofNat 52) (Char.ofNat 0), Edge.mk Direction.Same Direction.Previous),
    (Key.mk (Char.ofNat 49) (Char.ofNat 0), Key.mk (Char.ofNat 53) (Char.ofNat 0), Edge.mk Direction.Next Direction.Previous),
    (Key.mk (Char.ofNat 49) (Char.ofNat 0), Key.mk (Char.ofNat 50) (Char.ofNat 0), Edge.mk Direction.Next Direction.Same),
    (Key.mk (Char.ofNat 49) (Char.ofNat 0), Key.mk (Char.ofNat 48) (Char.ofNat 0), Edge.mk Direction.Next Direction.Next),
    (Key.mk (Char.ofNat 49) (Char.ofNat 0), Key.mk (Char.ofNat 0) (Char.ofNat 0), Edge.mk Direction.Same Direction.Next),
    (Key.mk (Char.ofNat 50) (Char.ofNat 0), Key.mk (Char.ofNat 49) (Char.ofNat 0), Edge.mk Direction.Previous Direction.Same),
    (Key.mk (Char.ofNat 50) (Char.ofNat 0), Key.mk (Char.ofNat 52) (Char.ofNat 0), Edge.mk Direction.Previous Direction.Previous),
    (Key.mk (Char.ofNat 50) (Char.ofNat 0), Key.mk (Char.ofNat 53) (Char.ofNat 0), Edge.mk Direction.Same Direction.Previous),
    (Key.mk (Char.ofNat 50) (Char.ofNat 0), Key.mk (Char.ofNat 54) (Char.ofNat 0), Edge.mk Direction.Next Direction.Previous),
    (Key.mk (Char.ofNat 50) (Char.ofNat 0), Key.mk (Char.ofNat 51) (Char.ofNat 0), Edge.mk Direction.Next Direction.Same),
    (Key.mk (Char.ofNat 50) (Char.ofNat 0), Key.mk (Char.ofNat 46) (Char.ofNat 0), Edge.mk Direction.Next Direction.Next),
    (Key.mk (Char.ofNat 50) (Char.ofNat 0), Key.mk (Char.ofNat 48) (Char.ofNat 0), Edge.mk Direction.Same Direction.Next),
    (Key.mk (Char.ofNat 50) (Char.ofNat 0), Key.mk (Char.ofNat 0) (Char.ofNat 0), Edge.mk Direction.Previous Direction.Next),
    (Key.mk (Char.ofNat 51) (Char.ofNat 0), Key.mk (Char.ofNat 50) (Char.ofNat 0), Edge.mk Direction.Previous Direction.Same),
    (Key.mk (Char.ofNat 51) (Char.ofNat 0), Key.mk (Char.ofNat 53) (Char.ofNat 0), Edge.mk Direction.Previous Direction.Previous),
    (Key.mk (Char.ofNat 51) (Char.ofNat 0), Key.mk (Char.ofNat 54) (Char.ofNat 0), Edge.mk Direction.Same Direction.Previous),
    (Key.mk (Char.ofNat 51) (Char.ofNat 0), Key.mk (Char.ofNat 43) (Char.ofNat 0), Edge.mk Direction.Next Direction.Previous),
    (Key.mk (Char.ofNat 51) (Char.ofNat 0), Key.mk (Char.ofNat 46) (Char.ofNat 0), Edge.mk Direction.Same Direction.Next),
    (Key.mk (Char.ofNat 51) (Char.ofNat 0), Key.mk (Char.ofNat 48) (Char.ofNat 0), Edge.mk Direction.Previous Direction.Next),
    (Key.mk (Char.ofNat 0) (Char.ofNat 0), Key.mk (Char.ofNat 49) (Char.ofNat 0), Edge.mk Direction.Same Direction.Previous),
    (Key.mk (Char.ofNat 0) (Char.ofNat 0), Key.mk (Char.ofNat 50) (Char.ofNat 0), Edge.mk Direction.Next Direction.Previous),
    (Key.mk (Char.ofNat 0) (Char.ofNat 0), Key.mk (Char.ofNat 48) (Char.ofNat 0), Edge.mk Direction.Next Direction.Same),
    (Key.mk (Char.ofNat 48) (Char.ofNat 0), Key.mk (Char.ofNat 0) (Char.ofNat 0), Edge.mk Direction.Previous Direction.Same),
    (Key.mk (Char.ofNat 48) (Char.ofNat 0), Key.mk (Char.ofNat 49) (Char.ofNat 0), Edge.mk Direction.Previous Direction.Previous),
    (Key.mk (Char.ofNat 48) (Char.ofNat 0), Key.mk (Char.ofNat 50) (Char.ofNat 0), Edge.mk Direction.Same Direction.Previous),
    (Key.mk (Char.ofNat 48) (Char.ofNat 0), Key.mk (Char.ofNat 51) (Char.ofNat 0), Edge.mk Direction.Next Direction.Previous),
    (Key.mk (Char.ofNat 48) (Char.ofNat 0), Key.mk (Char.ofNat 46) (Char.ofNat 0), Edge.mk Direction.Next Direction.Same),
    (Key.mk (Char.ofNat 46) (Char.ofNat 0), Key.mk (Char.ofNat 48) (Char.ofNat 0), Edge.mk Direction.Previous Direction.Same),
    (Key.mk (Char.ofNat 46) (Char.ofNat 0), Key.mk (Char.ofNat 50) (Char.ofNat 0), Edge.mk Direction.Previous Direction.Previous),
    (Key.mk (Char.ofNat 46) (Char.ofNat 0), Key.mk (Char.ofNat 51) (Char.ofNat 0), Edge.mk Direction.Same Direction.Previous) ]

/-- Negation of a direction: `Previous` and `Next` swap, `Same` is fixed. -/
def Direction.neg : Direction → Direction
  | .Previous => .Next
  | .Next => .Previous
  | .Same => .Same

/-- Negation of a relative offset, axiswise. -/
def Edge.neg (e : Edge) : Edge := Edge.mk e.horizontal.neg e.vertical.neg

/-- `true` iff for every directed edge `(a, b, d)` the graph also holds the
reciprocal edge `(b, a, -d)`. -/
def Graph.symB (g : Graph) : Bool :=
  g.edges.all (fun e => g.edges.any (fun r => decide (r = (e.2.1, e.1, Edge.neg e.2.2))))

/-- The edges leaving key `k`. -/
def Graph.out_edges (g : Graph) (k : Key) : List (Key × Key × Edge) :=
  g.edges.filter (fun e => decide (e.1 = k))

/-- The weight of the directed edge from `a` to `b`, if present. -/
def Graph.edge_weight (g : Graph) (a b : Key) : Option Edge :=
  (g.edges.find? (fun e => decide (e.1 = a ∧ e.2.1 = b))).map (fun e => e.2.2)

/-- All grid coordinates `(row, col)` at which character `c` sits. -/
def gridPositions (rows : List (List Char)) (c : Char) : List (Nat × Nat) :=
  (rows.enum.map (fun ir => ir.2.enum.filterMap
    (fun jk => if jk.2 = c then some (ir.1, jk.1) else none))).flatten

/-- `true` iff the stored offset `d` of an edge from `src` to `tgt` equals
the relative grid offset between the (first) cells holding their values. -/
def offset_matches (rows : List (List Char)) (src tgt : Key) (d : Edge) : Bool :=
  match (gridPositions rows src.value).head?, (gridPositions rows tgt.value).head? with
  | some p, some q =>
    decide (((q.1 : Int) - p.1 = d.vertical.toInt) ∧ ((q.2 : Int) - p.2 = d.horizontal.toInt))
  | _, _ => false

/-- The parsed grid of the standard numpad layout. -/
def numpad_rows : List (List Char) := parse_rows numpad_layout

/-- Symmetry of a graph's edge relation: every directed edge has a
reciprocal edge with the negated offset. This is the property the geometry
symmetry invariant claims of the generated graphs. -/
def symmetricP (g : Graph) : Prop :=
  ∀ e ∈ g.edges, (e.2.1, e.1, Edge.neg e.2.2) ∈ g.edges

/-- Certificate loop: walk the edge list in step with a list of indices;
each index must point at the reciprocal of the edge it is paired with. -/
def symCertLoop (edges : List (Key × Key × Edge)) :
    List (Key × Key × Edge) → List Nat → Bool
  | [], [] => true
  | e :: es, i :: is =>
    decide (edges[i]? = some (e.2.1, e.1, Edge.neg e.2.2)) && symCertLoop edges es is
  | _, _ => false

/-- Certificate check for `symmetricP`, linear in the edge list. -/
def symByCert (g : Graph) (cert : List Nat) : Bool :=
  symCertLoop g.edges g.edges cert

/-- Reciprocal-edge index certificate for `QWERTY_US`. -/
def qwerty_cert : List Nat :=
  [1, 0, 4, 47, 2, 8, 52, 48, 5, 12, 58, 53, 9, 16, 64, 59, 13, 20, 70, 65, 17, 24, 76, 71, 21, 28, 82, 77, 25, 32, 88, 83, 29, 36, 94, 89, 33, 40, 100, 95, 37, 44, 106, 101, 41, 112, 107, 3, 7, 51, 116, 49, 6, 11, 57, 121, 117, 54, 10, 15, 63, 127, 122, 60, 14, 19, 69, 133, 128, 66, 18, 23, 75, 139, 134, 72, 22, 27, 81, 145, 140, 78, 26, 31, 87, 151, 146, 84, 30, 35, 93, 157, 152, 90, 34, 39, 99, 163, 158, 96, 38, 43, 105, 169, 164, 102, 42, 46, 111, 175, 170, 108, 45, 115, 176, 113, 50, 56, 120, 178, 118, 55, 62, 126, 182, 179, 123, 61, 68, 132, 186, 183, 129, 67, 74, 138, 190, 187, 135, 73, 80, 144, 194, 191, 141, 79, 86, 150, 198, 195, 147, 85, 92, 156, 202, 199, 153, 91, 98, 162, 206, 203, 159, 97, 104, 168, 210, 207, 165, 103, 110, 174, 214, 211, 171, 109, 114, 215, 119, 125, 181, 180, 124, 131, 185, 184, 130, 137, 189, 188, 136, 143, 193, 192, 142, 149, 197, 196, 148, 155, 201, 200, 154, 161, 205, 204, 160, 167, 209, 208, 166, 173, 213, 212, 172, 177]

/-- Reciprocal-edge index certificate for `DVORAK`. -/
def dvorak_cert : List Nat :=
  [1, 0, 4, 47, 2, 8, 52, 48, 5, 12, 58, 53, 9, 16, 64, 59, 13, 20, 70, 65, 17, 24, 76, 71, 21, 28, 82, 77, 25, 32, 88, 83, 29, 36, 94, 89, 33, 40, 100, 95, 37, 44, 106, 101, 41, 112, 107, 3, 7, 51, 116, 49, 6, 11, 57, 121, 117, 54, 10, 15, 63, 127, 122, 60, 14, 19, 69, 133, 128, 66, 18, 23, 75, 139, 134, 72, 22, 27, 81, 145, 140, 78, 26, 31, 87, 151, 146, 84, 30, 35, 93, 157, 152, 90, 34, 39, 99, 163, 158, 96, 38, 43, 105, 169, 164, 102, 42, 46, 111, 175, 170, 108, 45, 115, 176, 113, 50, 56, 120, 178, 118, 55, 62, 126, 182, 179, 123, 61, 68, 132, 186, 183, 129, 67, 74, 138, 190, 187, 135, 73, 80, 144, 194, 191, 141, 79, 86, 150, 198, 195, 147, 85, 92, 156, 202, 199, 153, 91, 98, 162, 206, 203, 159, 97, 104, 168, 210, 207, 165, 103, 110, 174, 214, 211, 171, 109, 114, 215, 119, 125, 181, 180, 124, 131, 185, 184, 130, 137, 189, 188, 136, 143, 193, 192, 142, 149, 197, 196, 148, 155, 201, 200, 154, 161, 205, 204, 160, 167, 209, 208, 166, 173, 213, 212, 172, 177]

/-- Reciprocal-edge index certificate for `STANDARD_NUMPAD`. -/
def standard_numpad_cert : List Nat :=
  [3, 22, 16, 0, 8, 30, 23, 17, 4, 13, 37, 31, 24, 9, 38, 32, 2, 7, 21, 46, 40, 18, 1, 6, 12, 29, 54, 47, 41, 25, 5, 11, 15, 36, 55, 48, 33, 10, 14, 56, 20, 28, 45, 65, 59, 42, 19, 27, 35, 53, 73, 66, 60, 49, 26, 34, 39, 74, 67, 44, 52, 64, 81, 77, 61, 43, 51, 58, 72, 86, 82, 78, 68, 50, 57, 87, 83, 63, 71, 80, 79, 62, 70, 76, 85, 84, 69, 75]

/-- Reciprocal-edge index certificate for `MAC_NUMPAD`. -/
def mac_numpad_cert : List Nat :=
  [3, 22, 16, 0, 8, 30, 23, 17, 4, 13, 38, 31, 24, 9, 39, 32, 2, 7, 21, 48, 42, 18, 1, 6, 12, 29, 56, 49, 43, 25, 5, 11, 15, 37, 63, 57, 50, 33, 10, 14, 64, 58, 20, 28, 47, 72, 66, 44, 19, 27, 36, 55, 80, 73, 67, 51, 26, 35, 41, 62, 81, 74, 59, 34, 40, 82, 46, 54, 71, 89, 85, 68, 45, 53, 61, 79, 94, 90, 86, 75, 52, 60, 65, 95, 91, 70, 78, 88, 87, 69, 77, 84, 93, 92, 76, 83]

/-- Every character that owns a key in the QWERTY/Dvorak presets: the
alphabet plus the values of the punctuation table. -/
def preset_values : List Char := ALPHABET ++ remaining_keys.map Key.value

end Keygraph
namespace Keygraph

set_option maxRecDepth 100000

/-- Decomposition of a successful `List.find?`: the hit satisfies the
predicate and everything strictly before it fails it. -/
theorem find?_decomp {α : Type} (p : α → Bool) :
    ∀ (l : List α) (a : α), l.find? p = some a →
      p a = true ∧ ∃ pre post, l = pre ++ a :: post ∧ ∀ x ∈ pre, p x = false
  | [], a, h => by cases h
  | b :: t, a, h => by
    by_cases hb : p b
    · rw [List.find?_cons_of_pos t hb] at h
      injection h with h2
      subst h2
      exact ⟨hb, [], t, rfl, by intro x hx; cases hx⟩
    · rw [List.find?_cons_of_neg t hb] at h
      obtain ⟨hpa, pre, post, heq, hpre⟩ := find?_decomp p t a h
      refine ⟨hpa, b :: pre, post, by rw [heq]; rfl, ?_⟩
      intro x hx
      cases hx with
      | head => exact Bool.eq_false_iff.mpr hb
      | tail _ hx2 => exact hpre x hx2

/-- A key returned by `find_key` is a node of the graph. -/
theorem find_key_mem (g : Graph) (v : Char) (k : Key)
    (h : g.find_key v = some k) : k ∈ g.nodes := by
  unfold Graph.find_key at h
  by_cases hv : v = nullChar
  · rw [if_pos hv] at h; cases h
  · rw [if_neg hv] at h
    exact List.mem_of_find?_eq_some h

/-- C3: `find_key` misses exactly on the sentinel probe or when no node
matches on `value` or `shifted`; a hit is a matching node and is the first
match in the graph's node iteration order. -/
theorem claim_c3_find_key_contract (g : Graph) (v : Char) :
    (g.find_key v = none ↔
      (v = nullChar ∨ ∀ k ∈ g.nodes, k.value ≠ v ∧ k.shifted ≠ v)) ∧
    (∀ k, g.find_key v = some k →
      k ∈ g.nodes ∧ (k.value = v ∨ k.shifted = v) ∧
      ∃ pre post, g.nodes = pre ++ k :: post ∧
        ∀ x ∈ pre, x.value ≠ v ∧ x.shifted ≠ v) := by
  constructor
  · unfold Graph.find_key
    by_cases hv : v = nullChar
    · simp [hv]
    · rw [if_neg hv, List.find?_eq_none]
      constructor
      · intro h
        refine Or.inr ?_
        intro k hk
        have h2 := h k hk
        simp only [decide_eq_true_eq] at h2
        exact ⟨fun hc => h2 (Or.inl hc), fun hc => h2 (Or.inr hc)⟩
      · intro h k hk
        rcases h with h | h
        · exact absurd h hv
        · have h2 := h k hk
          simp only [decide_eq_true_eq]
          intro hc
          rcases hc with hc | hc
          · exact h2.1 hc
          · exact h2.2 hc
  · intro k hk
    unfold Graph.find_key at hk
    by_cases hv : v = nullChar
    · rw [if_pos hv] at hk; cases hk
    · rw [if_neg hv] at hk
      obtain ⟨hp, pre, post, heq, hpre⟩ := find?_decomp _ _ _ hk
      refine ⟨List.mem_of_find?_eq_some hk, by simpa using hp, pre, post, heq, ?_⟩
      intro x hx
      have h2 := hpre x hx
      simp only [decide_eq_false_iff_not] at h2
      exact ⟨fun hc => h2 (Or.inl hc), fun hc => h2 (Or.inr hc)⟩

/-- Witness for C3 at a concrete graph and probe. -/
theorem claim_c3_witness : Graph.empty.find_key 'a' = none :=
  (claim_c3_find_key_contract Graph.empty 'a').1.mpr
    (Or.inr (by intro k hk; cases hk))

/-- An `Option`-valued fold returns `some` when every step does. -/
theorem foldlM_isSome {α β : Type} (f : β → α → Option β)
    (hf : ∀ b a, (f b a).isSome = true) (l : List α) :
    ∀ b : β, (l.foldlM f b).isSome = true := by
  induction l with
  | nil => intro b; rfl
  | cons a t ih =>
    intro b
    rw [List.foldlM_cons]
    cases hfa : f b a with
    | none => have h := hf b a; rw [hfa] at h; cases h
    | some b1 =>
      exact ih b1

/-- The neighbor step of the connector never panics when `rowcount` is the
real number of rows: the guarded row access is in bounds. -/
theorem connectDir_isSome (rows : List (List Char)) (row : List Char)
    (amk : Bool) (i j : Nat) (k : Key) (g : Graph) (dir : Edge) :
    (connectDir rows (rows.length : Int) row amk i j k g dir).isSome = true := by
  simp only [connectDir]
  by_cases h : ((i : Int) + dir.vertical.toInt > -1 ∧
      (i : Int) + dir.vertical.toInt < (rows.length : Int) ∧
      (j : Int) + dir.horizontal.toInt > -1)
  · rw [if_pos h]
    have hlt : ((i : Int) + dir.vertical.toInt).toNat < rows.length := by omega
    cases hcase : (if dir.vertical = Direction.Same then some row
        else rows[((i : Int) + dir.vertical.toInt).toNat]?) with
    | none =>
      exfalso
      by_cases hsame : dir.vertical = Direction.Same
      · rw [if_pos hsame] at hcase; cases hcase
      · rw [if_neg hsame, List.getElem?_eq_getElem hlt] at hcase; cases hcase
    | some temp_row =>
      dsimp only
      cases htc : temp_row[((j : Int) + dir.horizontal.toInt).toNat]? with
      | none => rfl
      | some tc =>
        dsimp only
        cases hfk : g.find_key tc with
        | none => cases amk <;> rfl
        | some n => cases amk <;> rfl
  · rw [if_neg h]; rfl

/-- The per-cell step of the connector never panics. -/
theorem connectCell_isSome (rows : List (List Char)) (rp : List Edge)
    (amk : Bool) (i : Nat) (row : List Char) (g : Graph) (j : Nat) (key : Char) :
    (connectCell rows (rows.length : Int) rp amk i row g j key).isSome = true := by
  simp only [connectCell]
  cases hfk : g.find_key key with
  | none =>
    cases amk with
    | false => rfl
    | true =>
      exact foldlM_isSome _ (fun g2 d => connectDir_isSome rows row true i j _ g2 d) rp g
  | some k =>
    cases amk <;>
      exact foldlM_isSome _ (fun g2 d => connectDir_isSome rows row _ i j k g2 d) rp g

/-- C7: `connect_keyboard_nodes` never reads a row out of bounds and never
panics: for every layout text, graph, style and policy the connector
returns a result (the modelled `unwrap` is always fed `some`). -/
theorem claim_c7_no_panic (keyboard : String) (graph : Graph)
    (style : KeyboardStyle) (add_missing_keys : Bool) :
    (connect_keyboard_nodes keyboard graph style add_missing_keys).isSome = true := by
  unfold connect_keyboard_nodes
  exact foldlM_isSome _
    (fun g ir => foldlM_isSome _
      (fun g2 jk => connectCell_isSome (parse_rows keyboard) _ add_missing_keys ir.1 ir.2 g2 jk.1 jk.2)
      ir.2.enum g)
    (parse_rows keyboard).enum graph

/-- Witness for C7 at a concrete input. -/
theorem claim_c7_witness :
    (connect_keyboard_nodes numpad_layout Graph.empty KeyboardStyle.Aligned true).isSome = true :=
  claim_c7_no_panic numpad_layout Graph.empty KeyboardStyle.Aligned true

end Keygraph
namespace Keygraph

/-- Adding a node preserves every existing node. -/
theorem add_node_pres (g : Graph) (k k0 : Key) (h : k0 ∈ g.nodes) :
    k0 ∈ (g.add_node k).nodes := by
  unfold Graph.add_node
  split
  · exact h
  · exact List.mem_append_left _ h

/-- Adding an edge preserves every existing node. -/
theorem add_edge_pres (g : Graph) (a b : Key) (w : Edge) (k0 : Key)
    (h : k0 ∈ g.nodes) : k0 ∈ (g.add_edge a b w).nodes := by
  unfold Graph.add_edge
  exact add_node_pres _ _ _ (add_node_pres _ _ _ h)

/-- Adding an already-present node is a no-op. -/
theorem add_node_of_mem (g : Graph) (k : Key) (h : k ∈ g.nodes) :
    g.add_node k = g := by
  unfold Graph.add_node
  rw [if_pos h]

/-- Adding an edge between existing nodes leaves the node list unchanged. -/
theorem add_edge_nodes_of_mem (g : Graph) (a b : Key) (w : Edge)
    (ha : a ∈ g.nodes) (hb : b ∈ g.nodes) :
    (g.add_edge a b w).nodes = g.nodes := by
  simp only [Graph.add_edge]
  rw [add_node_of_mem g a ha, add_node_of_mem g b hb]

/-- One neighbor step only ever adds nodes. -/
theorem connectDir_pres (rows : List (List Char)) (rc : Int) (row : List Char)
    (amk : Bool) (i j : Nat) (k : Key) (g : Graph) (dir : Edge) (g2 : Graph)
    (h : connectDir rows rc row amk i j k g dir = some g2) (k0 : Key)
    (hk0 : k0 ∈ g.nodes) : k0 ∈ g2.nodes := by
  simp only [connectDir] at h
  by_cases hc : ((i : Int) + dir.vertical.toInt > -1 ∧
      (i : Int) + dir.vertical.toInt < rc ∧
      (j : Int) + dir.horizontal.toInt > -1)
  · rw [if_pos hc] at h
    cases hrow : (if dir.vertical = Direction.Same then some row
        else rows[((i : Int) + dir.vertical.toInt).toNat]?) with
    | none => rw [hrow] at h; cases h
    | some temp_row =>
      rw [hrow] at h
      dsimp only at h
      cases htc : temp_row[((j : Int) + dir.horizontal.toInt).toNat]? with
      | none =>
        rw [htc] at h
        injection h with h2
        subst h2
        exact hk0
      | some tc =>
        rw [htc] at h
        dsimp only at h
        cases hfk : g.find_key tc with
        | none =>
          rw [hfk] at h
          cases amk with
          | false => injection h with h2; subst h2; exact hk0
          | true => injection h with h2; subst h2; exact add_edge_pres _ _ _ _ _ hk0
        | some n =>
          rw [hfk] at h
          cases amk with
          | false => injection h with h2; subst h2; exact add_edge_pres _ _ _ _ _ hk0
          | true => injection h with h2; subst h2; exact add_edge_pres _ _ _ _ _ hk0
  · rw [if_neg hc] at h
    injection h with h2
    subst h2
    exact hk0

/-- An `Option`-valued fold over graphs preserves any property each step
preserves. -/
theorem foldlM_pres {α : Type} (f : Graph → α → Option Graph)
    (hf : ∀ g a g2, f g a = some g2 → ∀ k, k ∈ g.nodes → k ∈ g2.nodes)
    (l : List α) : ∀ (g g2 : Graph), l.foldlM f g = some g2 →
      ∀ k, k ∈ g.nodes → k ∈ g2.nodes := by
  induction l with
  | nil =>
    intro g g2 h k hk
    injection h with h2
    subst h2
    exact hk
  | cons a t ih =>
    intro g g2 h k hk
    rw [List.foldlM_cons] at h
    cases hfa : f g a with
    | none => rw [hfa] at h; cases h
    | some g1 =>
      rw [hfa] at h
      replace h : t.foldlM f g1 = some g2 := h
      exact ih g1 g2 h k (hf g a g1 hfa k hk)

/-- One cell step only ever adds nodes. -/
theorem connectCell_pres (rows : List (List Char)) (rc : Int) (rp : List Edge)
    (amk : Bool) (i : Nat) (row : List Char) (g : Graph) (j : Nat) (key : Char)
    (g2 : Graph) (h : connectCell rows rc rp amk i row g j key = some g2)
    (k0 : Key) (hk0 : k0 ∈ g.nodes) : k0 ∈ g2.nodes := by
  simp only [connectCell] at h
  cases hfk : g.find_key key with
  | none =>
    rw [hfk] at h
    cases amk with
    | false =>
      injection h with h2
      subst h2
      exact hk0
    | true =>
      exact foldlM_pres _ (fun ga d gb hd k hk =>
        connectDir_pres rows rc row true i j _ ga d gb hd k hk) rp g g2 h k0 hk0
  | some k =>
    rw [hfk] at h
    dsimp only at h
    exact foldlM_pres _ (fun ga d gb hd k2 hk =>
      connectDir_pres rows rc row amk i j k ga d gb hd k2 hk) rp g g2 h k0 hk0

/-- With the pre-registered policy, one neighbor step leaves the node list
unchanged (the key it connects from is required to be a node already). -/
theorem connectDir_nodes_eq (rows : List (List Char)) (rc : Int)
    (row : List Char) (i j : Nat) (k : Key) (g : Graph) (dir : Edge)
    (g2 : Graph) (hk : k ∈ g.nodes)
    (h : connectDir rows rc row false i j k g dir = some g2) :
    g2.nodes = g.nodes := by
  simp only [connectDir] at h
  by_cases hc : ((i : Int) + dir.vertical.toInt > -1 ∧
      (i : Int) + dir.vertical.toInt < rc ∧
      (j : Int) + dir.horizontal.toInt > -1)
  · rw [if_pos hc] at h
    cases hrow : (if dir.vertical = Direction.Same then some row
        else rows[((i : Int) + dir.vertical.toInt).toNat]?) with
    | none => rw [hrow] at h; cases h
    | some temp_row =>
      rw [hrow] at h
      dsimp only at h
      cases htc : temp_row[((j : Int) + dir.horizontal.toInt).toNat]? with
      | none =>
        rw [htc] at h
        injection h with h2
        subst h2
        rfl
      | some tc =>
        rw [htc] at h
        dsimp only at h
        cases hfk : g.find_key tc with
        | none =>
          rw [hfk] at h
          injection h with h2
          subst h2
          rfl
        | some n =>
          rw [hfk] at h
          injection h with h2
          subst h2
          exact add_edge_nodes_of_mem g k n dir hk (find_key_mem g tc n hfk)
  · rw [if_neg hc] at h
    injection h with h2
    subst h2
    rfl

/-- With the pre-registered policy, the neighbor loop of a cell leaves the
node list unchanged. -/
theorem foldl_dirs_nodes_eq (rows : List (List Char)) (rc : Int)
    (row : List Char) (i j : Nat) (k : Key) (l : List Edge) :
    ∀ (g g2 : Graph), k ∈ g.nodes →
      l.foldlM (connectDir rows rc row false i j k) g = some g2 →
      g2.nodes = g.nodes := by
  induction l with
  | nil =>
    intro g g2 _ h
    injection h with h2
    subst h2
    rfl
  | cons d t ih =>
    intro g g2 hk h
    rw [List.foldlM_cons] at h
    cases hfa : connectDir rows rc row false i j k g d with
    | none => rw [hfa] at h; cases h
    | some g1 =>
      rw [hfa] at h
      replace h : t.foldlM (connectDir rows rc row false i j k) g1 = some g2 := h
      have h1 : g1.nodes = g.nodes := connectDir_nodes_eq rows rc row i j k g d g1 hk hfa
      have h2 : g2.nodes = g1.nodes := ih g1 g2 (by rw [h1]; exact hk) h
      rw [h2, h1]

/-- With the pre-registered policy, one cell step leaves the node list
unchanged. -/
theorem connectCell_nodes_eq (rows : List (List Char)) (rc : Int)
    (rp : List Edge) (i : Nat) (row : List Char) (g : Graph) (j : Nat)
    (key : Char) (g2 : Graph)
    (h : connectCell rows rc rp false i row g j key = some g2) :
    g2.nodes = g.nodes := by
  simp only [connectCell] at h
  cases hfk : g.find_key key with
  | none =>
    rw [hfk] at h
    injection h with h2
    subst h2
    rfl
  | some k =>
    rw [hfk] at h
    dsimp only at h
    exact foldl_dirs_nodes_eq rows rc row i j k rp g g2 (find_key_mem g key k hfk) h

/-- An `Option`-valued fold over graphs preserves node-list equality when
each step does. -/
theorem foldlM_nodes_eq {α : Type} (f : Graph → α → Option Graph)
    (hf : ∀ g a g2, f g a = some g2 → g2.nodes = g.nodes)
    (l : List α) : ∀ (g g2 : Graph), l.foldlM f g = some g2 →
      g2.nodes = g.nodes := by
  induction l with
  | nil =>
    intro g g2 h
    injection h with h2
    subst h2
    rfl
  | cons a t ih =>
    intro g g2 h
    rw [List.foldlM_cons] at h
    cases hfa : f g a with
    | none => rw [hfa] at h; cases h
    | some g1 =>
      rw [hfa] at h
      replace h : t.foldlM f g1 = some g2 := h
      rw [ih g1 g2 h, hf g a g1 hfa]

/-- C10: the connector never removes or mutates pre-existing nodes — every
node of the input graph is a node of the output graph (with its fields
unchanged, keys being immutable values) — and under the pre-registered
policy (`add_missing_keys = false`) the node list is exactly preserved. -/
theorem claim_c10_connect_frame (keyboard : String) (g : Graph)
    (style : KeyboardStyle) (amk : Bool) (g2 : Graph)
    (h : connect_keyboard_nodes keyboard g style amk = some g2) :
    (∀ k, k ∈ g.nodes → k ∈ g2.nodes) ∧ (amk = false → g2.nodes = g.nodes) := by
  unfold connect_keyboard_nodes at h
  constructor
  · intro k hk
    exact foldlM_pres _
      (fun ga ir gb hd => foldlM_pres _
        (fun gc jk gd he => connectCell_pres _ _ _ amk ir.1 ir.2 gc jk.1 jk.2 gd he)
        ir.2.enum ga gb hd)
      (parse_rows keyboard).enum g g2 h k hk
  · intro hamk
    subst hamk
    exact foldlM_nodes_eq _
      (fun ga ir gb hd => foldlM_nodes_eq _
        (fun gc jk gd he => connectCell_nodes_eq _ _ _ ir.1 ir.2 gc jk.1 jk.2 gd he)
        ir.2.enum ga gb hd)
      (parse_rows keyboard).enum g g2 h

end Keygraph
namespace Keygraph

set_option maxRecDepth 100000
set_option maxHeartbeats 4000000

/-- Soundness of the certificate loop: a passing run pins a reciprocal
edge inside `edges` for every listed edge. -/
theorem symCertLoop_sound (edges : List (Key × Key × Edge))
    (l : List (Key × Key × Edge)) :
    ∀ (cert : List Nat), symCertLoop edges l cert = true →
      ∀ e ∈ l, (e.2.1, e.1, Edge.neg e.2.2) ∈ edges := by
  induction l with
  | nil => intro cert h e he; cases he
  | cons x t ih =>
    intro cert h e he
    cases cert with
    | nil => exact absurd h (by simp [symCertLoop])
    | cons i is =>
      simp only [symCertLoop, Bool.and_eq_true] at h
      obtain ⟨h1, h2⟩ := h
      cases he with
      | head => exact List.getElem?_mem (of_decide_eq_true h1)
      | tail _ ht => exact ih is h2 e ht

/-- A passing symmetry certificate proves the symmetry property. -/
theorem symCert_sound (g : Graph) (cert : List Nat)
    (h : symByCert g cert = true) : symmetricP g :=
  fun e he => symCertLoop_sound g.edges g.edges cert h e he

/-- The generated QWERTY graph in explicit form. -/
theorem QWERTY_US_eq : QWERTY_US = QWERTY_US_lit := rfl

/-- The generated Dvorak graph in explicit form. -/
theorem DVORAK_eq : DVORAK = DVORAK_lit := rfl

/-- The generated standard numpad graph in explicit form. -/
theorem STANDARD_NUMPAD_eq : STANDARD_NUMPAD = STANDARD_NUMPAD_lit := rfl

/-- The generated Mac numpad graph in explicit form. -/
theorem MAC_NUMPAD_eq : MAC_NUMPAD = MAC_NUMPAD_lit := rfl

/-- C1: in each generated graph, every directed edge `(A, B, d)` has a
reciprocal edge `(B, A, -d)` with Previous and Next swapped on each axis
and Same unchanged. -/
theorem claim_c1_geometry_symmetry :
    symmetricP QWERTY_US ∧ symmetricP DVORAK ∧
    symmetricP STANDARD_NUMPAD ∧ symmetricP MAC_NUMPAD := by
  refine ⟨?_, ?_, ?_, ?_⟩
  · rw [QWERTY_US_eq]
    exact symCert_sound QWERTY_US_lit qwerty_cert rfl
  · rw [DVORAK_eq]
    exact symCert_sound DVORAK_lit dvorak_cert rfl
  · rw [STANDARD_NUMPAD_eq]
    exact symCert_sound STANDARD_NUMPAD_lit standard_numpad_cert rfl
  · rw [MAC_NUMPAD_eq]
    exact symCert_sound MAC_NUMPAD_lit mac_numpad_cert rfl

/-- C2: in the standard numpad, the key `5` has exactly the eight
out-neighbors `4,7,8,9,6,3,2,1` (in edge insertion order), and every one of
these edges carries the relative grid offset between the cell of `5` and
the neighbor's cell. -/
theorem claim_c2_numpad_five :
    STANDARD_NUMPAD.find_key '5' = some (Key.mk '5' nullChar) ∧
    (STANDARD_NUMPAD.out_edges (Key.mk '5' nullChar)).map (fun e => (e.2.1, e.2.2)) =
      [ (Key.mk '4' nullChar, Edge.mk Direction.Previous Direction.Same),
        (Key.mk '7' nullChar, Edge.mk Direction.Previous Direction.Previous),
        (Key.mk '8' nullChar, Edge.mk Direction.Same Direction.Previous),
        (Key.mk '9' nullChar, Edge.mk Direction.Next Direction.Previous),
        (Key.mk '6' nullChar, Edge.mk Direction.Next Direction.Same),
        (Key.mk '3' nullChar, Edge.mk Direction.Next Direction.Next),
        (Key.mk '2' nullChar, Edge.mk Direction.Same Direction.Next),
        (Key.mk '1' nullChar, Edge.mk Direction.Previous Direction.Next) ] ∧
    (STANDARD_NUMPAD.out_edges (Key.mk '5' nullChar)).all
      (fun e => offset_matches numpad_rows e.1 e.2.1 e.2.2) = true := by
  rw [STANDARD_NUMPAD_eq]
  exact ⟨rfl, rfl, rfl⟩

/-- C4 divergence: lookup of the sentinel always misses and the
pre-registered graphs have no sentinel node, but under the auto-create
policy a grid cell holding the sentinel becomes a real node: both numpad
graphs contain the node `(nullChar, nullChar)` and edges touching it. -/
theorem claim_c4_sentinel_divergence :
    QWERTY_US.find_key nullChar = none ∧ DVORAK.find_key nullChar = none ∧
    STANDARD_NUMPAD.find_key nullChar = none ∧ MAC_NUMPAD.find_key nullChar = none ∧
    Key.mk nullChar nullChar ∉ QWERTY_US.nodes ∧
    Key.mk nullChar nullChar ∉ DVORAK.nodes ∧
    Key.mk nullChar nullChar ∈ STANDARD_NUMPAD.nodes ∧
    Key.mk nullChar nullChar ∈ MAC_NUMPAD.nodes ∧
    (Key.mk nullChar nullChar, Key.mk '7' nullChar,
      Edge.mk Direction.Same Direction.Next) ∈ STANDARD_NUMPAD.edges := by
  rw [QWERTY_US_eq, DVORAK_eq, STANDARD_NUMPAD_eq, MAC_NUMPAD_eq]
  decide

/-- C5: the slanted offset set is exactly the six listed offsets, and the
aligned offset set is exactly the eight offsets over both axes minus the
identity offset. -/
theorem claim_c5_offset_sets :
    get_slanted_positions =
      [ Edge.mk Direction.Previous Direction.Same,
        Edge.mk Direction.Same Direction.Previous,
        Edge.mk Direction.Next Direction.Previous,
        Edge.mk Direction.Next Direction.Same,
        Edge.mk Direction.Same Direction.Next,
        Edge.mk Direction.Previous Direction.Next ] ∧
    get_slanted_positions.Nodup ∧
    (∀ e : Edge, e ∈ get_aligned_positions ↔
      e ≠ Edge.mk Direction.Same Direction.Same) ∧
    get_aligned_positions.Nodup ∧
    get_aligned_positions.length = 8 := by
  decide

/-- C6: QWERTY (slanted, pre-registered) has the reciprocal `q`–`1` and
`q`–`2` edges with the expected offsets, exactly one edge from `q` to `w`,
and every node's character comes from the alphabetic or punctuation
tables — in particular there is no sentinel node. -/
theorem claim_c6_qwerty_checks :
    QWERTY_US.edge_weight (Key.mk 'q' 'Q') (Key.mk '1' '!') =
      some (Edge.mk Direction.Same Direction.Previous) ∧
    QWERTY_US.edge_weight (Key.mk '1' '!') (Key.mk 'q' 'Q') =
      some (Edge.mk Direction.Same Direction.Next) ∧
    QWERTY_US.edge_weight (Key.mk 'q' 'Q') (Key.mk '2' '@') =
      some (Edge.mk Direction.Next Direction.Previous) ∧
    QWERTY_US.edge_weight (Key.mk '2' '@') (Key.mk 'q' 'Q') =
      some (Edge.mk Direction.Previous Direction.Next) ∧
    (QWERTY_US.edges.filter
      (fun e => decide (e.1 = Key.mk 'q' 'Q' ∧ e.2.1 = Key.mk 'w' 'W'))).length = 1 ∧
    (∀ k ∈ QWERTY_US.nodes, k.value ∈ preset_values) ∧
    Key.mk nullChar nullChar ∉ QWERTY_US.nodes := by
  rw [QWERTY_US_eq]
  exact ⟨rfl, rfl, rfl, rfl, rfl, by decide, by decide⟩

/-- C8: no generated graph has an edge whose source and target keys are
equal, and neither offset set contains the identity offset. -/
theorem claim_c8_no_self_loops :
    (∀ e ∈ QWERTY_US.edges, e.1 ≠ e.2.1) ∧
    (∀ e ∈ DVORAK.edges, e.1 ≠ e.2.1) ∧
    (∀ e ∈ STANDARD_NUMPAD.edges, e.1 ≠ e.2.1) ∧
    (∀ e ∈ MAC_NUMPAD.edges, e.1 ≠ e.2.1) ∧
    Edge.mk Direction.Same Direction.Same ∉ get_slanted_positions ∧
    Edge.mk Direction.Same Direction.Same ∉ get_aligned_positions := by
  rw [QWERTY_US_eq, DVORAK_eq, STANDARD_NUMPAD_eq, MAC_NUMPAD_eq]
  decide

/-- C9: within each generated graph the node values are pairwise distinct,
so lookup by unshifted character is unambiguous. -/
theorem claim_c9_unique_values :
    (QWERTY_US.nodes.map Key.value).Nodup ∧
    (DVORAK.nodes.map Key.value).Nodup ∧
    (STANDARD_NUMPAD.nodes.map Key.value).Nodup ∧
    (MAC_NUMPAD.nodes.map Key.value).Nodup := by
  rw [QWERTY_US_eq, DVORAK_eq, STANDARD_NUMPAD_eq, MAC_NUMPAD_eq]
  decide

/-- Witness for C10 at the standard numpad build. -/
theorem claim_c10_witness : Key.mk '5' nullChar ∈ STANDARD_NUMPAD.nodes :=
  (claim_c10_connect_frame numpad_layout (add_unshifted_number_keys Graph.empty)
    KeyboardStyle.Aligned true STANDARD_NUMPAD rfl).1 (Key.mk '5' nullChar) (by decide)

end Keygraph
